import Mathlib

/-!
Shallow embedding of the HTTP/2 protocol engine of NoPASARAN
(`nopasaran/tools/http_2_overwrite.py`).

The repository monkey-patches the `h2` (4.2.0) and `hyperframe` (6.1.0)
libraries: `redefine_methods` replaces selected methods of the library
classes at import time.  The effective program is therefore the library
code with the patched methods substituted.  Definitions below whose name
starts with `new_` embed the patched methods from
`http_2_overwrite.py`; the remaining codec/state-machine definitions
embed the unpatched base implementations from `hyperframe/frame.py`,
`h2/connection.py` and `h2/windows.py` that the patched code calls into.

Conventions of the embedding:
* Python `bytes` values are `List Nat` with every element `< 256`.
* Machine integers are `Nat` (or `Int` where Python arithmetic can go
  negative), with `% 2^w` written out where the source masks or packs.
* Python exceptions become an explicit error type `H2Err`; an operation
  that can raise returns `Except H2Err _`.
* Python dicts that the code mutates by key assignment are association
  lists in insertion order (`dictInsert` is `d[k] = v`).
-/

namespace NoPasaran

/-- Python bytes, one `Nat` per byte. -/
abbrev Bytes := List Nat

/-! ## struct packing helpers

`_STRUCT_B` / `_STRUCT_H` / `_STRUCT_L` big-endian packing from
`hyperframe.frame`.  Packing is total, with the `% 2 ^ w` reduction made
explicit; the well-formedness hypotheses of the round-trip theorems keep
the fields inside the range where Python `struct.pack` does not raise. -/

/-- Big-endian 2-byte packing (`struct ">H"`). -/
def pack16 (n : Nat) : Bytes := [n / 256 % 256, n % 256]

/-- Big-endian 4-byte packing (`struct ">L"`). -/
def pack32 (n : Nat) : Bytes :=
  [n / 16777216 % 256, n / 65536 % 256, n / 256 % 256, n % 256]

/-- Big-endian 2-byte unpacking; `none` models `struct.error` when the
buffer is not exactly 2 bytes. -/
def unpack16 : Bytes → Option Nat
  | [a, b] => some (a * 256 + b)
  | _ => none

/-- Big-endian 4-byte unpacking; `none` models `struct.error` when the
buffer is not exactly 4 bytes. -/
def unpack32 : Bytes → Option Nat
  | [a, b, c, d] => some (((a * 256 + b) * 256 + c) * 256 + d)
  | _ => none

/-- Clamp a (possibly negative) Python slice index to `[0, len]`. -/
def pyIdx (len : Nat) (i : Int) : Nat :=
  if i < 0 then ((len : Int) + i).toNat else min i.toNat len

/-- Python slice `l[i:j]`, including the negative-index wrap-around that
expressions such as `data[pdl:len(data)-pad_length]` rely on. -/
def pySlice (l : Bytes) (i j : Int) : Bytes :=
  (l.take (pyIdx l.length j)).drop (pyIdx l.length i)

theorem unpack16_pack16 (n : Nat) (h : n < 65536) : unpack16 (pack16 n) = some n := by
  simp only [pack16, unpack16, Option.some.injEq]
  omega

theorem unpack32_pack32 (n : Nat) (h : n < 4294967296) :
    unpack32 (pack32 n) = some n := by
  simp only [pack32, unpack32, Option.some.injEq]
  omega

theorem pack16_length (n : Nat) : (pack16 n).length = 2 := rfl

theorem pack32_length (n : Nat) : (pack32 n).length = 4 := rfl

theorem take_min_length {α : Type} (l : List α) (j : Nat) :
    l.take (min j l.length) = l.take j := by
  rcases le_total j l.length with h | h
  · rw [min_eq_left h]
  · rw [min_eq_right h, List.take_of_length_le h, List.take_of_length_le (le_refl _)]

theorem drop_min_of_le {α : Type} (X : List α) (n i : Nat) (h : X.length ≤ n) :
    X.drop (min i n) = X.drop i := by
  rcases le_total i n with h2 | h2
  · rw [min_eq_left h2]
  · rw [min_eq_right h2, List.drop_eq_nil_of_le h,
      List.drop_eq_nil_of_le (le_trans h h2)]

theorem pySlice_natCast (l : Bytes) (i j : Nat) :
    pySlice l (i : Int) (j : Int) = (l.take j).drop i := by
  unfold pySlice pyIdx
  have hi : ¬ ((i : Int) < 0) := by omega
  have hj : ¬ ((j : Int) < 0) := by omega
  simp only [hi, hj, if_false, Int.toNat_natCast]
  rw [take_min_length]
  exact drop_min_of_le _ _ _ (by rw [List.length_take]; exact min_le_right _ _)

theorem pySlice_append_self (A B : Bytes) :
    pySlice (A ++ B) (A.length : Int) ((A.length + B.length : Nat) : Int) = B := by
  rw [pySlice_natCast]
  rw [List.take_of_length_le (by simp)]
  simp

/-! ## Error model

One constructor per exception class that the embedded code can raise.
`invalidFrameError`, `invalidPaddingError` and `invalidDataError` are the
hyperframe codec exceptions; the rest are `h2` exceptions.  `indexError`
models the Python built-in `IndexError`. -/

/-- Exceptions raised by the embedded code. -/
inductive H2Err where
  | invalidFrameError
  | invalidPaddingError
  | invalidDataError
  | protocolError
  | frameDataMissingError
  | flowControlError
  | noSuchStreamError
  | streamClosedError
  | indexError
deriving DecidableEq, Repr

/-- Decidable equality on `Except`, used to evaluate concrete runs of the
embedded operations inside witnesses and counterexamples. -/
instance {ε α : Type} [DecidableEq ε] [DecidableEq α] : DecidableEq (Except ε α) :=
  fun x y =>
    match x, y with
    | .error a, .error b =>
        if h : a = b then .isTrue (by rw [h])
        else .isFalse (by intro he; cases he; exact h rfl)
    | .ok a, .ok b =>
        if h : a = b then .isTrue (by rw [h])
        else .isFalse (by intro he; cases he; exact h rfl)
    | .error _, .ok _ => .isFalse (by intro he; cases he)
    | .ok _, .error _ => .isFalse (by intro he; cases he)

/-! ## Frame data model

One structure per hyperframe frame class.  Flag sets (`hyperframe.flags.Flags`
restricted to the `defined_flags` of the class) are represented as one `Bool`
field per defined flag.  `body_len` is bookkeeping that `serialize` and
`parse_body` both overwrite; parsing returns it separately instead of
storing it in the structure (`ExtensionFrame` keeps it because its custom
`serialize` reads the stored value). -/

/-- DATA frame (`hyperframe.frame.DataFrame`): flags END_STREAM, PADDED. -/
structure DataFrame where
  stream_id : Nat
  end_stream : Bool
  padded : Bool
  pad_length : Nat
  data : Bytes
deriving DecidableEq, Repr

/-- HEADERS frame (`hyperframe.frame.HeadersFrame`): flags END_STREAM,
END_HEADERS, PADDED, PRIORITY; priority mixin fields. -/
structure HeadersFrame where
  stream_id : Nat
  end_stream : Bool
  end_headers : Bool
  padded : Bool
  priority : Bool
  pad_length : Nat
  depends_on : Nat
  stream_weight : Nat
  exclusive : Bool
  data : Bytes
deriving DecidableEq, Repr

/-- PRIORITY frame (`hyperframe.frame.PriorityFrame`): no flags. -/
structure PriorityFrame where
  stream_id : Nat
  depends_on : Nat
  stream_weight : Nat
  exclusive : Bool
deriving DecidableEq, Repr

/-- RST_STREAM frame (`hyperframe.frame.RstStreamFrame`): no flags. -/
structure RstStreamFrame where
  stream_id : Nat
  error_code : Nat
deriving DecidableEq, Repr

/-- SETTINGS frame (`hyperframe.frame.SettingsFrame`): flag ACK; the
settings dict is an association list in insertion order. -/
structure SettingsFrame where
  stream_id : Nat
  ack : Bool
  settings : List (Nat × Nat)
deriving DecidableEq, Repr

/-- PUSH_PROMISE frame (`hyperframe.frame.PushPromiseFrame`): flags
END_HEADERS, PADDED. -/
structure PushPromiseFrame where
  stream_id : Nat
  end_headers : Bool
  padded : Bool
  pad_length : Nat
  promised_stream_id : Nat
  data : Bytes
deriving DecidableEq, Repr

/-- PING frame (`hyperframe.frame.PingFrame`): flag ACK. -/
structure PingFrame where
  stream_id : Nat
  ack : Bool
  opaque_data : Bytes
deriving DecidableEq, Repr

/-- GOAWAY frame (`hyperframe.frame.GoAwayFrame`): no flags. -/
structure GoAwayFrame where
  stream_id : Nat
  last_stream_id : Nat
  error_code : Nat
  additional_data : Bytes
deriving DecidableEq, Repr

/-- WINDOW_UPDATE frame (`hyperframe.frame.WindowUpdateFrame`): no flags. -/
structure WindowUpdateFrame where
  stream_id : Nat
  window_increment : Nat
deriving DecidableEq, Repr

/-- CONTINUATION frame (`hyperframe.frame.ContinuationFrame`): flag
END_HEADERS. -/
structure ContinuationFrame where
  stream_id : Nat
  end_headers : Bool
  data : Bytes
deriving DecidableEq, Repr

/-- ALTSVC frame (`hyperframe.frame.AltSvcFrame`): no flags. -/
structure AltSvcFrame where
  stream_id : Nat
  origin : Bytes
  field : Bytes
deriving DecidableEq, Repr

/-- Unknown-type frame (`hyperframe.frame.ExtensionFrame`).  Its custom
`serialize` reads the stored `body_len` and raw `flag_byte`, so both are
kept as fields. -/
structure ExtensionFrame where
  ty : Nat
  stream_id : Nat
  flag_byte : Nat
  body : Bytes
  body_len : Nat
deriving DecidableEq, Repr

/-- The closed union of frame kinds the codec can produce (types 0x0-0xA
plus the extension fallback), mirroring `hyperframe.frame.FRAMES`. -/
inductive Frame where
  | data : DataFrame → Frame
  | headers : HeadersFrame → Frame
  | priority : PriorityFrame → Frame
  | rst_stream : RstStreamFrame → Frame
  | settings : SettingsFrame → Frame
  | push_promise : PushPromiseFrame → Frame
  | ping : PingFrame → Frame
  | goaway : GoAwayFrame → Frame
  | window_update : WindowUpdateFrame → Frame
  | continuation : ContinuationFrame → Frame
  | altsvc : AltSvcFrame → Frame
  | extension : ExtensionFrame → Frame
deriving DecidableEq, Repr

/-! ## Serialization (`hyperframe.frame`, unpatched)

`Frame.serialize` emits the 9-byte header
`_STRUCT_HBBBL.pack((body_len >> 8) & 0xFFFF, body_len & 0xFF, type,
flags, stream_id & 0x7FFFFFFF)` followed by `serialize_body()`.
`ExtensionFrame.serialize` is the custom override that reuses the stored
`body_len` and `flag_byte`. -/

/-- Boolean flag to its bit contribution in the serialized flag byte. -/
def flagBit (b : Bool) (bit : Nat) : Nat := if b then bit else 0

/-- The 9-byte frame header (`Frame.serialize` in hyperframe). -/
def serializeHeader (body_len ty flags stream_id : Nat) : Bytes :=
  pack16 (body_len / 256 % 65536) ++ [body_len % 256, ty, flags]
    ++ pack32 (stream_id % 2147483648)

/-- Padding-mixin `serialize_padding_data`: one length byte iff PADDED. -/
def serialize_padding_data (padded : Bool) (pad_length : Nat) : Bytes :=
  if padded then [pad_length % 256] else []

/-- Priority-mixin `serialize_priority_data`: 4-byte
`depends_on + (0x80000000 if exclusive)` plus the weight byte. -/
def serialize_priority_data (depends_on : Nat) (exclusive : Bool) (stream_weight : Nat) :
    Bytes :=
  pack32 ((depends_on + flagBit exclusive 2147483648) % 4294967296)
    ++ [stream_weight % 256]

def DataFrame.serialize_body (f : DataFrame) : Bytes :=
  serialize_padding_data f.padded f.pad_length ++ f.data
    ++ List.replicate f.pad_length 0

def HeadersFrame.serialize_body (f : HeadersFrame) : Bytes :=
  serialize_padding_data f.padded f.pad_length
    ++ (if f.priority then
          serialize_priority_data f.depends_on f.exclusive f.stream_weight
        else [])
    ++ f.data ++ List.replicate f.pad_length 0

def PriorityFrame.serialize_body (f : PriorityFrame) : Bytes :=
  serialize_priority_data f.depends_on f.exclusive f.stream_weight

def RstStreamFrame.serialize_body (f : RstStreamFrame) : Bytes :=
  pack32 (f.error_code % 4294967296)

/-- hyperframe 6.1.0 masks the setting identifier with `& 0xFF` when
serializing (`_STRUCT_HL.pack(setting & 0xFF, value)`). -/
def SettingsFrame.serialize_body (f : SettingsFrame) : Bytes :=
  f.settings.flatMap (fun kv => pack16 (kv.1 % 256) ++ pack32 (kv.2 % 4294967296))

def PushPromiseFrame.serialize_body (f : PushPromiseFrame) : Bytes :=
  serialize_padding_data f.padded f.pad_length
    ++ pack32 (f.promised_stream_id % 4294967296) ++ f.data
    ++ List.replicate f.pad_length 0

/-- Python raises `InvalidFrameError` when `opaque_data` exceeds 8 bytes;
inside that bound, it zero-pads to exactly 8 bytes. -/
def PingFrame.serialize_body (f : PingFrame) : Bytes :=
  f.opaque_data ++ List.replicate (8 - f.opaque_data.length) 0

def GoAwayFrame.serialize_body (f : GoAwayFrame) : Bytes :=
  pack32 (f.last_stream_id % 2147483648) ++ pack32 (f.error_code % 4294967296)
    ++ f.additional_data

def WindowUpdateFrame.serialize_body (f : WindowUpdateFrame) : Bytes :=
  pack32 (f.window_increment % 2147483648)

def ContinuationFrame.serialize_body (f : ContinuationFrame) : Bytes := f.data

def AltSvcFrame.serialize_body (f : AltSvcFrame) : Bytes :=
  pack16 (f.origin.length % 65536) ++ f.origin ++ f.field

/-- The serialized flag byte: the bitwise OR over the defined flags of the
frame type (`Frame.serialize` loop over `defined_flags`). -/
def Frame.flagByte : Frame → Nat
  | .data f => flagBit f.end_stream 1 + flagBit f.padded 8
  | .headers f =>
      flagBit f.end_stream 1 + flagBit f.end_headers 4 + flagBit f.padded 8
        + flagBit f.priority 32
  | .priority _ => 0
  | .rst_stream _ => 0
  | .settings f => flagBit f.ack 1
  | .push_promise f => flagBit f.end_headers 4 + flagBit f.padded 8
  | .ping f => flagBit f.ack 1
  | .goaway _ => 0
  | .window_update _ => 0
  | .continuation f => flagBit f.end_headers 4
  | .altsvc _ => 0
  | .extension f => f.flag_byte

/-- The frame-type byte (`Frame.type` class attribute). -/
def Frame.typeByte : Frame → Nat
  | .data _ => 0
  | .headers _ => 1
  | .priority _ => 2
  | .rst_stream _ => 3
  | .settings _ => 4
  | .push_promise _ => 5
  | .ping _ => 6
  | .goaway _ => 7
  | .window_update _ => 8
  | .continuation _ => 9
  | .altsvc _ => 10
  | .extension f => f.ty

def Frame.streamId : Frame → Nat
  | .data f => f.stream_id
  | .headers f => f.stream_id
  | .priority f => f.stream_id
  | .rst_stream f => f.stream_id
  | .settings f => f.stream_id
  | .push_promise f => f.stream_id
  | .ping f => f.stream_id
  | .goaway f => f.stream_id
  | .window_update f => f.stream_id
  | .continuation f => f.stream_id
  | .altsvc f => f.stream_id
  | .extension f => f.stream_id

def Frame.serialize_body : Frame → Bytes
  | .data f => f.serialize_body
  | .headers f => f.serialize_body
  | .priority f => f.serialize_body
  | .rst_stream f => f.serialize_body
  | .settings f => f.serialize_body
  | .push_promise f => f.serialize_body
  | .ping f => f.serialize_body
  | .goaway f => f.serialize_body
  | .window_update f => f.serialize_body
  | .continuation f => f.serialize_body
  | .altsvc f => f.serialize_body
  | .extension f => f.body

/-- `Frame.serialize`: header (with `body_len := len(serialize_body())`)
followed by the body.  `ExtensionFrame.serialize` instead reuses the
stored `body_len` and emits the raw `flag_byte`. -/
def Frame.serialize (f : Frame) : Bytes :=
  match f with
  | .extension e =>
      serializeHeader e.body_len e.ty e.flag_byte e.stream_id ++ e.body
  | _ =>
      serializeHeader f.serialize_body.length f.typeByte f.flagByte f.streamId
        ++ f.serialize_body

/-! ## Parsing

`Frame.parse_frame_header` (hyperframe, unpatched) decodes the 9-byte
header, constructs the frame object for the type byte (an
`ExtensionFrame` for unknown types) and applies `parse_flags`.  The
repository replaces `Frame.__init__` with a version that omits the
`stream_association` checks, so header parsing never raises in the
patched program.  `parse_body` then dispatches on the type: the
repository replaces `parse_body` of `RstStreamFrame`, `SettingsFrame`,
`PushPromiseFrame` and `WindowUpdateFrame` (the `new_*` definitions
below); the remaining types keep the hyperframe implementation.
Each body parser returns the parsed frame together with the `body_len`
value the Python code stores on the frame object. -/

/-- Decoded 9-byte frame header: declared body length, type byte, raw flag
byte, and the stream id with the reserved top bit masked off. -/
structure RawFrameHeader where
  length : Nat
  ty : Nat
  flags : Nat
  stream_id : Nat
deriving DecidableEq, Repr

/-- `Frame.parse_frame_header` field extraction on exactly 9 bytes
(`struct.error`, hence `InvalidFrameError`, otherwise). -/
def parse_frame_header : Bytes → Except H2Err RawFrameHeader
  | [l1, l0, l2, t, fl, s3, s2, s1, s0] =>
      .ok { length := (l1 * 256 + l0) * 256 + l2
            ty := t
            flags := fl
            stream_id := (((s3 * 256 + s2) * 256 + s1) * 256 + s0) % 2147483648 }
  | _ => .error .invalidFrameError

/-- Padding-mixin `parse_padding_data`: returns `(pad_length, consumed)`;
raises `InvalidFrameError` when PADDED is set and the body is empty. -/
def parse_padding_data (padded : Bool) (b : Bytes) : Except H2Err (Nat × Nat) :=
  if padded then
    match b with
    | [] => .error .invalidFrameError
    | x :: _ => .ok (x, 1)
  else .ok (0, 0)

/-- Priority-mixin `parse_priority_data` on `data[:5]`: returns
`(depends_on, stream_weight, exclusive, consumed = 5)`. -/
def parse_priority_data (b : Bytes) : Except H2Err (Nat × Nat × Bool × Nat) :=
  match b.take 5 with
  | [a, c, d, e, w] =>
      let raw := ((a * 256 + c) * 256 + d) * 256 + e
      .ok (raw % 2147483648, w, decide (raw / 2147483648 ≠ 0), 5)
  | _ => .error .invalidFrameError

/-- `DataFrame.parse_body` (hyperframe, unpatched). -/
def dataFrameParseBody (stream_id : Nat) (end_stream padded : Bool) (b : Bytes) :
    Except H2Err (DataFrame × Nat) := do
  let (pl, pdl) ← parse_padding_data padded b
  let d := pySlice b (pdl : Int) ((b.length : Int) - (pl : Int))
  if pl ≠ 0 ∧ pl ≥ b.length then throw .invalidPaddingError
  return ({ stream_id, end_stream, padded, pad_length := pl, data := d }, b.length)

/-- `HeadersFrame.parse_body` (hyperframe, unpatched): strips the padding
length byte, then priority data when PRIORITY is set; `body_len` is the
length *after* the padding length byte was stripped. -/
def headersFrameParseBody (stream_id : Nat)
    (end_stream end_headers padded priority : Bool) (b : Bytes) :
    Except H2Err (HeadersFrame × Nat) := do
  let (pl, pdl) ← parse_padding_data padded b
  let rest := pySlice b (pdl : Int) (b.length : Int)
  let (dep, wt, excl, priolen) ←
    if priority then parse_priority_data rest else pure (0, 0, false, 0)
  let d := pySlice rest (priolen : Int) ((rest.length : Int) - (pl : Int))
  if pl ≠ 0 ∧ pl ≥ rest.length then throw .invalidPaddingError
  return ({ stream_id, end_stream, end_headers, padded, priority,
            pad_length := pl, depends_on := dep, stream_weight := wt,
            exclusive := excl, data := d }, rest.length)

/-- `PriorityFrame.parse_body` (hyperframe, unpatched). -/
def priorityFrameParseBody (stream_id : Nat) (b : Bytes) :
    Except H2Err (PriorityFrame × Nat) := do
  if b.length > 5 then throw .invalidFrameError
  let (dep, wt, excl, _) ← parse_priority_data b
  return ({ stream_id, depends_on := dep, stream_weight := wt, exclusive := excl }, 5)

/-- Patched `RstStreamFrame.parse_body` (`new_rststream_parse_body` in
`http_2_overwrite.py`): ignores the body entirely, records error code 0
and `body_len = 4`. -/
def new_rststream_parse_body (stream_id : Nat) (_b : Bytes) :
    Except H2Err (RstStreamFrame × Nat) :=
  .ok ({ stream_id, error_code := 0 }, 4)

/-- Python `d[k] = v` on an insertion-ordered dict represented as an
association list: update in place if the key exists, else append. -/
def dictInsert (m : List (Nat × Nat)) (k v : Nat) : List (Nat × Nat) :=
  match m with
  | [] => [(k, v)]
  | (k1, v1) :: rest =>
      if k1 = k then (k, v) :: rest else (k1, v1) :: dictInsert rest k v

/-- The complete leading 6-byte `(u16 id, u32 value)` chunks of a SETTINGS
body, mirroring `for i in range(0, (len(data) // 6) * 6, 6)`. -/
def parseSettingsPairs : Bytes → List (Nat × Nat)
  | n1 :: n0 :: v3 :: v2 :: v1 :: v0 :: rest =>
      (n1 * 256 + n0, ((v3 * 256 + v2) * 256 + v1) * 256 + v0)
        :: parseSettingsPairs rest
  | _ => []

/-- Patched `SettingsFrame.parse_body` (`new_settings_parse_body`): stores
every complete leading 6-byte pair, silently ignores a trailing remainder,
never raises, and records `body_len = len(data)` (the full length).  The
ACK-with-payload check of the unpatched version is gone. -/
def new_settings_parse_body (stream_id : Nat) (ack : Bool) (b : Bytes) :
    Except H2Err (SettingsFrame × Nat) :=
  .ok ({ stream_id, ack,
         settings := (parseSettingsPairs b).foldl
           (fun m kv => dictInsert m kv.1 kv.2) [] }, b.length)

/-- Patched `PushPromiseFrame.parse_body` (`new_push_promise_parse_body`):
like the hyperframe version but without the promised-stream-id
evenness/nonzero validation; `body_len` is the full body length. -/
def new_push_promise_parse_body (stream_id : Nat) (end_headers padded : Bool)
    (b : Bytes) : Except H2Err (PushPromiseFrame × Nat) := do
  let (pl, pdl) ← parse_padding_data padded b
  let promised ←
    match unpack32 (pySlice b (pdl : Int) ((pdl + 4 : Nat) : Int)) with
    | some n => pure n
    | none => throw .invalidFrameError
  let d := pySlice b ((pdl + 4 : Nat) : Int) ((b.length : Int) - (pl : Int))
  if pl ≠ 0 ∧ pl ≥ b.length then throw .invalidPaddingError
  return ({ stream_id, end_headers, padded, pad_length := pl,
            promised_stream_id := promised, data := d }, b.length)

/-- `PingFrame.parse_body` (hyperframe, unpatched): exactly 8 bytes. -/
def pingFrameParseBody (stream_id : Nat) (ack : Bool) (b : Bytes) :
    Except H2Err (PingFrame × Nat) :=
  if b.length ≠ 8 then .error .invalidFrameError
  else .ok ({ stream_id, ack, opaque_data := b }, 8)

/-- `GoAwayFrame.parse_body` (hyperframe, unpatched). -/
def goawayFrameParseBody (stream_id : Nat) (b : Bytes) :
    Except H2Err (GoAwayFrame × Nat) :=
  match b.take 4, (b.drop 4).take 4 with
  | [a3, a2, a1, a0], [c3, c2, c1, c0] =>
      .ok ({ stream_id
             last_stream_id := ((a3 * 256 + a2) * 256 + a1) * 256 + a0
             error_code := ((c3 * 256 + c2) * 256 + c1) * 256 + c0
             additional_data := if b.length > 8 then b.drop 8 else [] },
           b.length)
  | _, _ => .error .invalidFrameError

/-- Patched `WindowUpdateFrame.parse_body` (`new_window_update_parse_body`):
`_STRUCT_L.unpack(data)` needs exactly 4 bytes; no range validation of the
increment and no masking of the reserved bit. -/
def new_window_update_parse_body (stream_id : Nat) (b : Bytes) :
    Except H2Err (WindowUpdateFrame × Nat) :=
  match unpack32 b with
  | some n => .ok ({ stream_id, window_increment := n }, 4)
  | none => .error .invalidFrameError

/-- `ContinuationFrame.parse_body` (hyperframe, unpatched). -/
def continuationFrameParseBody (stream_id : Nat) (end_headers : Bool) (b : Bytes) :
    Except H2Err (ContinuationFrame × Nat) :=
  .ok ({ stream_id, end_headers, data := b }, b.length)

/-- `AltSvcFrame.parse_body` (hyperframe, unpatched). -/
def altsvcFrameParseBody (stream_id : Nat) (b : Bytes) :
    Except H2Err (AltSvcFrame × Nat) :=
  match unpack16 (b.take 2) with
  | none => .error .invalidFrameError
  | some origin_len =>
      let origin := pySlice b (2 : Int) ((2 + origin_len : Nat) : Int)
      if origin.length ≠ origin_len then .error .invalidFrameError
      else
        .ok ({ stream_id, origin
               field := pySlice b ((2 + origin_len : Nat) : Int) (b.length : Int) },
             b.length)

/-- `ExtensionFrame.parse_body` together with its `parse_flags` override
(stores the raw flag byte). -/
def extensionFrameParseBody (ty stream_id flag_byte : Nat) (b : Bytes) :
    Except H2Err (ExtensionFrame × Nat) :=
  .ok ({ ty, stream_id, flag_byte, body := b, body_len := b.length }, b.length)

/-- Whether a flag bit is set in the raw flag byte (`parse_flags` testing
`flag_byte & flag_bit`). -/
def hasFlag (flags bit : Nat) : Bool := decide (flags / bit % 2 = 1)

/-- Dispatch of `parse_body` over the frame type byte, mirroring the
`FRAMES` class map (unknown types fall back to `ExtensionFrame`), with
`parse_flags` applied to the raw flag byte of the header. -/
def parse_body (h : RawFrameHeader) (b : Bytes) : Except H2Err (Frame × Nat) :=
  match h.ty with
  | 0 => (dataFrameParseBody h.stream_id (hasFlag h.flags 1) (hasFlag h.flags 8)
            b).map (fun fn => (.data fn.1, fn.2))
  | 1 => (headersFrameParseBody h.stream_id (hasFlag h.flags 1) (hasFlag h.flags 4)
            (hasFlag h.flags 8) (hasFlag h.flags 32) b).map
            (fun fn => (.headers fn.1, fn.2))
  | 2 => (priorityFrameParseBody h.stream_id b).map (fun fn => (.priority fn.1, fn.2))
  | 3 => (new_rststream_parse_body h.stream_id b).map
            (fun fn => (.rst_stream fn.1, fn.2))
  | 4 => (new_settings_parse_body h.stream_id (hasFlag h.flags 1) b).map
            (fun fn => (.settings fn.1, fn.2))
  | 5 => (new_push_promise_parse_body h.stream_id (hasFlag h.flags 4)
            (hasFlag h.flags 8) b).map (fun fn => (.push_promise fn.1, fn.2))
  | 6 => (pingFrameParseBody h.stream_id (hasFlag h.flags 1) b).map
            (fun fn => (.ping fn.1, fn.2))
  | 7 => (goawayFrameParseBody h.stream_id b).map (fun fn => (.goaway fn.1, fn.2))
  | 8 => (new_window_update_parse_body h.stream_id b).map
            (fun fn => (.window_update fn.1, fn.2))
  | 9 => (continuationFrameParseBody h.stream_id (hasFlag h.flags 4) b).map
            (fun fn => (.continuation fn.1, fn.2))
  | 10 => (altsvcFrameParseBody h.stream_id b).map (fun fn => (.altsvc fn.1, fn.2))
  | t => (extensionFrameParseBody t h.stream_id h.flags b).map
            (fun fn => (.extension fn.1, fn.2))

/-- Header-then-body parse of a serialized frame: `parse_frame_header` on
the first 9 bytes, then `parse_body` on `data[9:9+length]` (the codec
composition used by `FrameBuffer.__next__` and `Frame.explain`).  The
missing-data check mirrors `__next__`, which leaves short frames in the
buffer (`StopIteration`, surfaced here as `frameDataMissingError`). -/
def parseFrameBytes (b : Bytes) : Except H2Err (Frame × Nat) := do
  let h ← parse_frame_header (b.take 9)
  if b.length < h.length + 9 then throw .frameDataMissingError
  parse_body h (pySlice b (9 : Int) ((9 + h.length : Nat) : Int))

/-! ## Well-formed frames

A frame is well-formed when its fields fit the wire ranges that Python
`struct.pack` enforces by raising (so total serialization never raises),
payload bytes are genuine bytes, fields guarded by an absent flag hold
their constructor defaults (Python never serializes them), padded frames
whose padding could swallow the whole body are excluded (hyperframe
raises `InvalidPaddingError` on re-parse), and PING bodies are exactly
8 bytes (shorter ones are zero-extended on the wire). -/

def isByteList (l : Bytes) : Prop := ∀ x ∈ l, x < 256

instance (l : Bytes) : Decidable (isByteList l) := List.decidableBAll _ l

def DataFrame.wf (f : DataFrame) : Prop :=
  f.stream_id < 2 ^ 31 ∧ isByteList f.data ∧ f.pad_length < 256 ∧
    (f.padded = false → f.pad_length = 0) ∧
    (if f.padded then 1 else 0) + f.data.length + f.pad_length < 2 ^ 24

def HeadersFrame.wf (f : HeadersFrame) : Prop :=
  f.stream_id < 2 ^ 31 ∧ isByteList f.data ∧ f.pad_length < 256 ∧
    (f.padded = false → f.pad_length = 0) ∧
    (f.priority = false → f.depends_on = 0 ∧ f.stream_weight = 0 ∧
      f.exclusive = false) ∧
    f.depends_on < 2 ^ 31 ∧ f.stream_weight < 256 ∧
    (f.pad_length ≠ 0 → f.priority = true ∨ f.data ≠ []) ∧
    (if f.padded then 1 else 0) + (if f.priority then 5 else 0) +
      f.data.length + f.pad_length < 2 ^ 24

def PriorityFrame.wf (f : PriorityFrame) : Prop :=
  f.stream_id < 2 ^ 31 ∧ f.depends_on < 2 ^ 31 ∧ f.stream_weight < 256

def RstStreamFrame.wf (f : RstStreamFrame) : Prop :=
  f.stream_id < 2 ^ 31 ∧ f.error_code < 2 ^ 32

def SettingsFrame.wf (f : SettingsFrame) : Prop :=
  f.stream_id < 2 ^ 31 ∧ (∀ kv ∈ f.settings, kv.1 < 256 ∧ kv.2 < 2 ^ 32) ∧
    (f.settings.map Prod.fst).Nodup ∧ 6 * f.settings.length < 2 ^ 24

def PushPromiseFrame.wf (f : PushPromiseFrame) : Prop :=
  f.stream_id < 2 ^ 31 ∧ isByteList f.data ∧ f.pad_length < 256 ∧
    (f.padded = false → f.pad_length = 0) ∧ f.promised_stream_id < 2 ^ 32 ∧
    (if f.padded then 1 else 0) + 4 + f.data.length + f.pad_length < 2 ^ 24

def PingFrame.wf (f : PingFrame) : Prop :=
  f.stream_id < 2 ^ 31 ∧ isByteList f.opaque_data ∧ f.opaque_data.length = 8

def GoAwayFrame.wf (f : GoAwayFrame) : Prop :=
  f.stream_id < 2 ^ 31 ∧ f.last_stream_id < 2 ^ 31 ∧ f.error_code < 2 ^ 32 ∧
    isByteList f.additional_data ∧ 8 + f.additional_data.length < 2 ^ 24

def WindowUpdateFrame.wf (f : WindowUpdateFrame) : Prop :=
  f.stream_id < 2 ^ 31 ∧ f.window_increment < 2 ^ 31

def ContinuationFrame.wf (f : ContinuationFrame) : Prop :=
  f.stream_id < 2 ^ 31 ∧ isByteList f.data ∧ f.data.length < 2 ^ 24

def AltSvcFrame.wf (f : AltSvcFrame) : Prop :=
  f.stream_id < 2 ^ 31 ∧ isByteList f.origin ∧ isByteList f.field ∧
    f.origin.length < 2 ^ 16 ∧ 2 + f.origin.length + f.field.length < 2 ^ 24

def ExtensionFrame.wf (f : ExtensionFrame) : Prop :=
  f.stream_id < 2 ^ 31 ∧ f.ty < 256 ∧ 10 < f.ty ∧ f.flag_byte < 256 ∧
    isByteList f.body ∧ f.body_len = f.body.length ∧ f.body.length < 2 ^ 24

def Frame.WellFormed : Frame → Prop
  | .data f => f.wf
  | .headers f => f.wf
  | .priority f => f.wf
  | .rst_stream f => f.wf
  | .settings f => f.wf
  | .push_promise f => f.wf
  | .ping f => f.wf
  | .goaway f => f.wf
  | .window_update f => f.wf
  | .continuation f => f.wf
  | .altsvc f => f.wf
  | .extension f => f.wf

instance : DecidablePred Frame.WellFormed := by
  intro f
  cases f <;> (unfold Frame.WellFormed) <;>
    (unfold DataFrame.wf HeadersFrame.wf PriorityFrame.wf RstStreamFrame.wf
      SettingsFrame.wf PushPromiseFrame.wf PingFrame.wf GoAwayFrame.wf
      WindowUpdateFrame.wf ContinuationFrame.wf AltSvcFrame.wf
      ExtensionFrame.wf) <;> infer_instance

/-- What a frame becomes after serialize-then-parse: identical, except
that the patched RST_STREAM parser unconditionally records error code 0. -/
def roundtripImage : Frame → Frame
  | .rst_stream f => .rst_stream { f with error_code := 0 }
  | f => f

theorem intSub_natCast (n pl : Nat) (h : pl ≤ n) :
    (n : Int) - (pl : Int) = ((n - pl : Nat) : Int) := by omega

theorem serializeHeader_length (bl ty fl sid : Nat) :
    (serializeHeader bl ty fl sid).length = 9 := rfl

/-- Parsing a frame serialized with a correct header reduces to parsing
its body. -/
theorem parseFrameBytes_header (bl ty fl sid : Nat) (B : Bytes)
    (hbl : B.length = bl) (hlt : bl < 2 ^ 24) (hsid : sid < 2 ^ 31) :
    parseFrameBytes (serializeHeader bl ty fl sid ++ B) =
      parse_body ⟨bl, ty, fl, sid⟩ B := by
  have htake : (serializeHeader bl ty fl sid ++ B).take 9 =
      serializeHeader bl ty fl sid := by
    rw [show (9 : Nat) = (serializeHeader bl ty fl sid).length from rfl]
    exact List.take_left _ _
  have hdr : parse_frame_header (serializeHeader bl ty fl sid) =
      .ok ⟨bl, ty, fl, sid⟩ := by
    simp only [serializeHeader, pack16, pack32, List.cons_append, List.nil_append,
      parse_frame_header, Except.ok.injEq, RawFrameHeader.mk.injEq]
    refine ⟨by omega, trivial, trivial, by omega⟩
  have hlen : (serializeHeader bl ty fl sid ++ B).length = 9 + bl := by
    simp [serializeHeader_length, hbl]
  have hslice : pySlice (serializeHeader bl ty fl sid ++ B) (9 : Int)
      ((9 + bl : Nat) : Int) = B := by
    have h9 : (9 : Int) = ((serializeHeader bl ty fl sid).length : Int) := by
      rw [serializeHeader_length]; rfl
    have hjj : ((9 + bl : Nat) : Int) =
        (((serializeHeader bl ty fl sid).length + B.length : Nat) : Int) := by
      rw [serializeHeader_length, hbl]
    rw [h9, hjj]
    exact pySlice_append_self _ _
  unfold parseFrameBytes
  rw [htake, hdr]
  simp only [Bind.bind, Except.bind]
  rw [hlen, if_neg (by omega : ¬ (9 + bl < bl + 9))]
  rw [hslice]
  rfl

theorem hasFlag2_fst (a b : Bool) (x y : Nat) (hx : x = 1 ∨ x = 4)
    (hy : y = 8) : hasFlag (flagBit a x + flagBit b y) x = a := by
  rcases hx with h | h <;> subst h <;> subst hy <;> cases a <;> cases b <;> rfl

theorem hasFlag2_snd (a b : Bool) (x y : Nat) (hx : x = 1 ∨ x = 4)
    (hy : y = 8) : hasFlag (flagBit a x + flagBit b y) y = b := by
  rcases hx with h | h <;> subst h <;> subst hy <;> cases a <;> cases b <;> rfl

theorem hasFlag1 (a : Bool) (x : Nat) (hx : x = 1 ∨ x = 4) :
    hasFlag (flagBit a x) x = a := by
  rcases hx with h | h <;> subst h <;> cases a <;> rfl

theorem hasFlagH1 (a b c d : Bool) :
    hasFlag (flagBit a 1 + flagBit b 4 + flagBit c 8 + flagBit d 32) 1 = a := by
  cases a <;> cases b <;> cases c <;> cases d <;> rfl

theorem hasFlagH4 (a b c d : Bool) :
    hasFlag (flagBit a 1 + flagBit b 4 + flagBit c 8 + flagBit d 32) 4 = b := by
  cases a <;> cases b <;> cases c <;> cases d <;> rfl

theorem hasFlagH8 (a b c d : Bool) :
    hasFlag (flagBit a 1 + flagBit b 4 + flagBit c 8 + flagBit d 32) 8 = c := by
  cases a <;> cases b <;> cases c <;> cases d <;> rfl

theorem hasFlagH32 (a b c d : Bool) :
    hasFlag (flagBit a 1 + flagBit b 4 + flagBit c 8 + flagBit d 32) 32 = d := by
  cases a <;> cases b <;> cases c <;> cases d <;> rfl

theorem pySlice_take_drop (b : Bytes) (i j : Nat) :
    pySlice b (i : Int) (j : Int) = (b.take j).drop i := pySlice_natCast b i j

/-- Round-trip of the DATA body codec (unpatched on both sides). -/
theorem dataFrameParseBody_roundtrip (f : DataFrame) (h : f.wf) :
    dataFrameParseBody f.stream_id f.end_stream f.padded f.serialize_body =
      .ok (f, f.serialize_body.length) := by
  obtain ⟨sid, es, p, pl, d⟩ := f
  obtain ⟨hsid, hbytes, hpl, hpz, hlen⟩ := h
  cases p with
  | false =>
      have hpl0 : pl = 0 := hpz rfl
      subst hpl0
      simp only [DataFrame.serialize_body, serialize_padding_data, if_false,
        Bool.false_eq_true, List.replicate_zero, List.append_nil, List.nil_append]
      unfold dataFrameParseBody parse_padding_data
      simp only [Bind.bind, Except.bind, if_false, Bool.false_eq_true]
      have hsub : ((d.length : Int) - ((0 : Nat) : Int)) = ((d.length : Nat) : Int) := by
        omega
      rw [hsub, pySlice_take_drop]
      simp only [List.take_length, List.drop_zero]
      rfl
  | true =>
      have hplm : pl % 256 = pl := Nat.mod_eq_of_lt hpl
      simp only [DataFrame.serialize_body, serialize_padding_data, if_true, hplm]
      have hb : ([pl] ++ d ++ List.replicate pl 0) =
          pl :: (d ++ List.replicate pl 0) := by simp
      rw [hb]
      unfold dataFrameParseBody parse_padding_data
      simp only [Bind.bind, Except.bind, if_true]
      have hlen2 : (pl :: (d ++ List.replicate pl 0)).length = 1 + d.length + pl := by
        simp; omega
      rw [hlen2]
      have hsub : ((1 + d.length + pl : Nat) : Int) - ((pl : Nat) : Int) =
          ((1 + d.length : Nat) : Int) := by omega
      rw [hsub, pySlice_take_drop]
      have htake : (pl :: (d ++ List.replicate pl 0)).take (1 + d.length) =
          pl :: d := by
        rw [show 1 + d.length = d.length + 1 from by omega]
        simp only [List.take_succ_cons]
        rw [List.take_left]
      rw [htake]
      have hcond : ¬ (pl ≠ 0 ∧ pl ≥ 1 + d.length + pl) := by omega
      rw [if_neg hcond]
      simp only [List.drop_succ_cons, List.drop_zero]
      rfl

/-- Round-trip of the 5-byte priority mixin data. -/
theorem parse_priority_data_roundtrip (dep wt : Nat) (excl : Bool) (rest : Bytes)
    (hdep : dep < 2 ^ 31) (hwt : wt < 256) :
    parse_priority_data (serialize_priority_data dep excl wt ++ rest) =
      .ok (dep, wt, excl, 5) := by
  cases excl with
  | false =>
      have hf : flagBit false 2147483648 = 0 := rfl
      have hn : (dep + flagBit false 2147483648) % 4294967296 = dep := by
        rw [hf]; omega
      simp only [serialize_priority_data, hn, pack32, parse_priority_data,
        List.cons_append, List.nil_append, List.take_succ_cons, List.take_zero]
      have hm : wt % 256 = wt := Nat.mod_eq_of_lt hwt
      have h1 : ((dep / 16777216 % 256 * 256 + dep / 65536 % 256) * 256 +
          dep / 256 % 256) * 256 + dep % 256 = dep := by omega
      simp only [h1, hm, Except.ok.injEq, Prod.mk.injEq]
      have h2 : dep / 2147483648 = 0 := by omega
      have h3 : dep % 2147483648 = dep := by omega
      simp [h2, h3]
  | true =>
      have hf : flagBit true 2147483648 = 2147483648 := rfl
      have hn : (dep + flagBit true 2147483648) % 4294967296 = dep + 2147483648 := by
        rw [hf]; omega
      simp only [serialize_priority_data, hn, pack32, parse_priority_data,
        List.cons_append, List.nil_append, List.take_succ_cons, List.take_zero]
      have hm : wt % 256 = wt := Nat.mod_eq_of_lt hwt
      set n := dep + 2147483648 with hndef
      have h1 : ((n / 16777216 % 256 * 256 + n / 65536 % 256) * 256 +
          n / 256 % 256) * 256 + n % 256 = n := by omega
      simp only [h1, hm, Except.ok.injEq, Prod.mk.injEq]
      have h2 : n / 2147483648 = 1 := by omega
      have h3 : n % 2147483648 = dep := by omega
      simp [h2, h3]

/-- Round-trip of the PRIORITY body codec (unpatched on both sides). -/
theorem priorityFrameParseBody_roundtrip (f : PriorityFrame) (h : f.wf) :
    priorityFrameParseBody f.stream_id f.serialize_body = .ok (f, 5) := by
  obtain ⟨sid, dep, wt, excl⟩ := f
  obtain ⟨hsid, hdep, hwt⟩ := h
  have hb : (PriorityFrame.serialize_body ⟨sid, dep, wt, excl⟩) =
      serialize_priority_data dep excl wt ++ [] := by
    simp [PriorityFrame.serialize_body]
  unfold priorityFrameParseBody
  rw [hb]
  have hlen : (serialize_priority_data dep excl wt ++ ([] : Bytes)).length = 5 := by
    simp [serialize_priority_data, pack32]
  rw [parse_priority_data_roundtrip dep wt excl [] hdep hwt]
  simp only [Bind.bind, Except.bind, hlen]
  rw [if_neg (by omega : ¬ (5 : Nat) > 5)]
  rfl

/-- Appending a fresh key to an insertion-ordered dict. -/
theorem dictInsert_not_mem (m : List (Nat × Nat)) (k v : Nat)
    (h : k ∉ m.map Prod.fst) : dictInsert m k v = m ++ [(k, v)] := by
  induction m with
  | nil => rfl
  | cons kv rest ih =>
      obtain ⟨k1, v1⟩ := kv
      simp only [List.map_cons, List.mem_cons, not_or] at h
      unfold dictInsert
      rw [if_neg (Ne.symm h.1), ih h.2]
      simp

/-- Folding `d[k] = v` over pairwise-fresh pairs recovers the pair list. -/
theorem foldl_dictInsert_nodup (ps acc : List (Nat × Nat))
    (h : (acc.map Prod.fst ++ ps.map Prod.fst).Nodup) :
    ps.foldl (fun m kv => dictInsert m kv.1 kv.2) acc = acc ++ ps := by
  induction ps generalizing acc with
  | nil => simp
  | cons kv rest ih =>
      obtain ⟨k, v⟩ := kv
      simp only [List.foldl_cons]
      have hknotin : k ∉ acc.map Prod.fst := by
        intro hk
        have hd := (List.nodup_append.mp h).2.2
        exact hd hk (by simp)
      rw [dictInsert_not_mem acc k v hknotin]
      have h2 : (((acc ++ [(k, v)]).map Prod.fst) ++ rest.map Prod.fst).Nodup := by
        simp only [List.map_append, List.map_cons, List.map_nil] at h ⊢
        simpa [List.append_assoc] using h
      rw [ih _ h2]
      simp

/-- Parsing the serialized settings pair list recovers it verbatim when
identifiers are bytes and values are 32-bit. -/
theorem parseSettingsPairs_serialize (ps : List (Nat × Nat))
    (h : ∀ kv ∈ ps, kv.1 < 256 ∧ kv.2 < 2 ^ 32) :
    parseSettingsPairs
      (ps.flatMap (fun kv => pack16 (kv.1 % 256) ++ pack32 (kv.2 % 4294967296)))
      = ps := by
  induction ps with
  | nil => rfl
  | cons kv rest ih =>
      obtain ⟨k, v⟩ := kv
      have hk := (h (k, v) (by simp)).1
      have hv := (h (k, v) (by simp)).2
      have hrest : ∀ kv ∈ rest, kv.1 < 256 ∧ kv.2 < 2 ^ 32 := by
        intro x hx; exact h x (by simp [hx])
      rw [List.flatMap_cons]
      have hkm : (k, v).1 % 256 = k := Nat.mod_eq_of_lt hk
      have hvm : (k, v).2 % 4294967296 = v := Nat.mod_eq_of_lt hv
      rw [hkm, hvm]
      have ihr := ih hrest
      revert ihr
      generalize (rest.flatMap fun kv =>
        pack16 (kv.1 % 256) ++ pack32 (kv.2 % 4294967296)) = T
      intro ihr
      simp only [pack16, pack32, List.cons_append, List.nil_append,
        parseSettingsPairs, ihr]
      have h1 : k / 256 % 256 * 256 + k % 256 = k := by omega
      have h2 : ((v / 16777216 % 256 * 256 + v / 65536 % 256) * 256 + v / 256 % 256) * 256
          + v % 256 = v := by omega
      rw [h1, h2]
      simp [ihr]

/-- Round-trip of the patched SETTINGS body codec. -/
theorem settingsParseBody_roundtrip (f : SettingsFrame) (h : f.wf) :
    new_settings_parse_body f.stream_id f.ack f.serialize_body =
      .ok (f, f.serialize_body.length) := by
  obtain ⟨sid, ack, ps⟩ := f
  obtain ⟨hsid, hkv, hnd, hlen⟩ := h
  unfold new_settings_parse_body
  have hfold : (parseSettingsPairs
      (SettingsFrame.serialize_body ⟨sid, ack, ps⟩)).foldl
      (fun m kv => dictInsert m kv.1 kv.2) [] = ps := by
    rw [show SettingsFrame.serialize_body ⟨sid, ack, ps⟩ =
      ps.flatMap (fun kv => pack16 (kv.1 % 256) ++ pack32 (kv.2 % 4294967296))
      from rfl]
    rw [parseSettingsPairs_serialize ps hkv]
    simpa using foldl_dictInsert_nodup ps [] (by simpa using hnd)
  simp [hfold]

/-- Round-trip of the PING body codec (unpatched on both sides). -/
theorem pingFrameParseBody_roundtrip (f : PingFrame) (h : f.wf) :
    pingFrameParseBody f.stream_id f.ack f.serialize_body = .ok (f, 8) := by
  obtain ⟨sid, ack, od⟩ := f
  obtain ⟨hsid, hbytes, hlen⟩ := h
  have hser : PingFrame.serialize_body ⟨sid, ack, od⟩ = od := by
    simp only [PingFrame.serialize_body]
    rw [hlen]
    simp
  unfold pingFrameParseBody
  rw [hser, hlen]
  rfl

/-- Round-trip of the GOAWAY body codec (unpatched on both sides). -/
theorem goawayFrameParseBody_roundtrip (f : GoAwayFrame) (h : f.wf) :
    goawayFrameParseBody f.stream_id f.serialize_body =
      .ok (f, f.serialize_body.length) := by
  obtain ⟨sid, last, ec, add⟩ := f
  obtain ⟨hsid, hlast, hec, hbytes, hlen⟩ := h
  have hlm : last % 2147483648 = last := Nat.mod_eq_of_lt hlast
  have hem : ec % 4294967296 = ec := Nat.mod_eq_of_lt hec
  simp only [GoAwayFrame.serialize_body, hlm, hem, pack32, List.cons_append,
    List.nil_append]
  unfold goawayFrameParseBody
  simp only [List.take_succ_cons, List.take_zero, List.drop_succ_cons,
    List.drop_zero, List.length_cons]
  have h1 : ((last / 16777216 % 256 * 256 + last / 65536 % 256) * 256 +
      last / 256 % 256) * 256 + last % 256 = last := by omega
  have h2 : ((ec / 16777216 % 256 * 256 + ec / 65536 % 256) * 256 +
      ec / 256 % 256) * 256 + ec % 256 = ec := by omega
  rw [h1, h2]
  cases add with
  | nil => rfl
  | cons x xs =>
      rw [if_pos (by simp)]

/-- Round-trip of the WINDOW_UPDATE codec: unpatched serializer, patched
parser (`new_window_update_parse_body`). -/
theorem windowUpdateParseBody_roundtrip (f : WindowUpdateFrame) (h : f.wf) :
    new_window_update_parse_body f.stream_id f.serialize_body = .ok (f, 4) := by
  obtain ⟨sid, incr⟩ := f
  obtain ⟨hsid, hincr⟩ := h
  have him : incr % 2147483648 = incr := Nat.mod_eq_of_lt hincr
  unfold new_window_update_parse_body WindowUpdateFrame.serialize_body
  rw [him, unpack32_pack32 incr (by omega)]

/-- Round-trip of the CONTINUATION body codec (unpatched on both sides). -/
theorem continuationParseBody_roundtrip (f : ContinuationFrame) :
    continuationFrameParseBody f.stream_id f.end_headers f.serialize_body =
      .ok (f, f.serialize_body.length) := rfl

/-- Round-trip of the ALTSVC body codec (unpatched on both sides). -/
theorem altsvcParseBody_roundtrip (f : AltSvcFrame) (h : f.wf) :
    altsvcFrameParseBody f.stream_id f.serialize_body =
      .ok (f, f.serialize_body.length) := by
  obtain ⟨sid, origin, fld⟩ := f
  obtain ⟨hsid, hob, hfb, holen, hlen⟩ := h
  dsimp only at *
  have hom : origin.length % 65536 = origin.length := Nat.mod_eq_of_lt holen
  unfold altsvcFrameParseBody AltSvcFrame.serialize_body
  dsimp only
  rw [hom]
  have htake2 : (pack16 origin.length ++ origin ++ fld).take 2 = pack16 origin.length := by
    simp [pack16, List.take_succ_cons]
  rw [htake2, unpack16_pack16 origin.length holen]
  dsimp only
  have horig : pySlice (pack16 origin.length ++ origin ++ fld) (2 : Int)
      ((2 + origin.length : Nat) : Int) = origin := by
    have h2 : (2 : Int) = ((pack16 origin.length).length : Int) := by
      rw [pack16_length]; rfl
    have hj : ((2 + origin.length : Nat) : Int) =
        (((pack16 origin.length).length + origin.length : Nat) : Int) := by
      rw [pack16_length]
    rw [h2, hj, List.append_assoc]
    rw [pySlice_natCast]
    rw [List.take_append]
    simp [List.take_left]
  rw [horig, if_neg (by omega : ¬ origin.length ≠ origin.length)]
  have hfld : pySlice (pack16 origin.length ++ origin ++ fld)
      ((2 + origin.length : Nat) : Int)
      (((pack16 origin.length ++ origin ++ fld).length : Nat) : Int) = fld := by
    have hj : ((pack16 origin.length ++ origin ++ fld).length : Nat) =
        (pack16 origin.length ++ origin).length + fld.length := by
      simp [List.append_assoc]; omega
    have hi : (2 + origin.length : Nat) = (pack16 origin.length ++ origin).length := by
      simp [pack16]; omega
    rw [hj, hi]
    exact pySlice_append_self _ _
  rw [hfld]

theorem pySlice_triple (P D R : Bytes) :
    pySlice (P ++ D ++ R) ((P.length : Nat) : Int) ((P.length + D.length : Nat) : Int)
      = D := by
  rw [List.append_assoc, pySlice_natCast, List.take_append, List.take_left]
  exact List.drop_left _ _

/-- Round-trip of the patched PUSH_PROMISE body codec. -/
theorem pushPromiseParseBody_roundtrip (f : PushPromiseFrame) (h : f.wf) :
    new_push_promise_parse_body f.stream_id f.end_headers f.padded
      f.serialize_body = .ok (f, f.serialize_body.length) := by
  obtain ⟨sid, eh, p, pl, prom, d⟩ := f
  obtain ⟨hsid, hbytes, hpl, hpz, hprom, hlen⟩ := h
  have hpm : prom % 4294967296 = prom := Nat.mod_eq_of_lt hprom
  cases p with
  | false =>
      have hpl0 : pl = 0 := hpz rfl
      subst hpl0
      have hbody : PushPromiseFrame.serialize_body ⟨sid, eh, false, 0, prom, d⟩ =
          pack32 prom ++ d := by
        simp [PushPromiseFrame.serialize_body, serialize_padding_data, hpm]
      unfold new_push_promise_parse_body parse_padding_data
      rw [hbody]
      simp only [Bind.bind, Except.bind, pure, Except.pure, if_false, Bool.false_eq_true]
      have hslice4 : pySlice (pack32 prom ++ d) (((0 + 4 : Nat)) : Int)
          (((pack32 prom ++ d).length : Int) - ((0 : Nat) : Int)) = d := by
        have hj : ((pack32 prom ++ d).length : Int) - ((0 : Nat) : Int) =
            (((pack32 prom).length + d.length : Nat) : Int) := by
          simp [pack32_length]
        rw [hj]
        have hi : ((0 + 4 : Nat) : Int) = ((pack32 prom).length : Int) := by
          rw [pack32_length]
        rw [hi]
        exact pySlice_append_self _ _
      have hpromslice : pySlice (pack32 prom ++ d) ((0 : Nat) : Int)
          ((0 + 4 : Nat) : Int) = pack32 prom := by
        rw [pySlice_natCast]
        have : (pack32 prom ++ d).take (0 + 4) = pack32 prom := by
          rw [show (0 + 4 : Nat) = (pack32 prom).length from by rw [pack32_length]]
          exact List.take_left _ _
        rw [this]
        rfl
      rw [hpromslice, unpack32_pack32 prom hprom]
      simp only [Bind.bind, Except.bind, pure, Except.pure]
      rw [hslice4]
      rw [if_neg (by omega : ¬ ((0 : Nat) ≠ 0 ∧ 0 ≥ (pack32 prom ++ d).length))]
  | true =>
      have hplm : pl % 256 = pl := Nat.mod_eq_of_lt hpl
      have hbody : PushPromiseFrame.serialize_body ⟨sid, eh, true, pl, prom, d⟩ =
          pl :: (pack32 prom ++ (d ++ List.replicate pl 0)) := by
        simp [PushPromiseFrame.serialize_body, serialize_padding_data, hplm, hpm]
      unfold new_push_promise_parse_body parse_padding_data
      rw [hbody]
      simp only [Bind.bind, Except.bind, pure, Except.pure, if_true]
      have hlenb : (pl :: (pack32 prom ++ (d ++ List.replicate pl 0))).length =
          5 + d.length + pl := by
        simp [pack32_length]; omega
      have hpromslice : pySlice (pl :: (pack32 prom ++ (d ++ List.replicate pl 0)))
          ((1 : Nat) : Int) ((1 + 4 : Nat) : Int) = pack32 prom := by
        rw [pySlice_natCast]
        have h5 : (pl :: (pack32 prom ++ (d ++ List.replicate pl 0))).take (1 + 4) =
            pl :: pack32 prom := by
          rw [show (1 + 4 : Nat) = 4 + 1 from rfl, List.take_succ_cons]
          congr 1
        rw [h5]
        rfl
      rw [hpromslice, unpack32_pack32 prom hprom]
      simp only [Bind.bind, Except.bind, pure, Except.pure]
      have hslice4 : pySlice (pl :: (pack32 prom ++ (d ++ List.replicate pl 0)))
          (((1 + 4 : Nat)) : Int)
          (((pl :: (pack32 prom ++ (d ++ List.replicate pl 0))).length : Int)
            - ((pl : Nat) : Int)) = d := by
        rw [hlenb]
        have hj : ((5 + d.length + pl : Nat) : Int) - ((pl : Nat) : Int) =
            ((5 + d.length : Nat) : Int) := by omega
        rw [hj]
        have hP : pl :: (pack32 prom ++ (d ++ List.replicate pl 0)) =
            (pl :: pack32 prom) ++ d ++ List.replicate pl 0 := by simp
        rw [hP]
        have hi : ((1 + 4 : Nat) : Int) = (((pl :: pack32 prom).length : Nat) : Int) := by
          rw [show (pl :: pack32 prom).length = 5 from by simp [pack32_length]]
        have hjj : ((5 + d.length : Nat) : Int) =
            (((pl :: pack32 prom).length + d.length : Nat) : Int) := by
          rw [show (pl :: pack32 prom).length = 5 from by simp [pack32_length]]
        rw [hi, hjj]
        exact pySlice_triple _ _ _
      rw [hslice4, hlenb]
      rw [if_neg (by omega : ¬ (pl ≠ 0 ∧ pl ≥ 5 + d.length + pl))]

/-- Round-trip of the HEADERS body codec (unpatched on both sides). -/
theorem headersParseBody_roundtrip (f : HeadersFrame) (h : f.wf) :
    headersFrameParseBody f.stream_id f.end_stream f.end_headers f.padded
      f.priority f.serialize_body =
      .ok (f, f.serialize_body.length - (if f.padded then 1 else 0)) := by
  obtain ⟨sid, es, eh, p, pr, pl, dep, wt, excl, d⟩ := f
  obtain ⟨hsid, hbytes, hpl, hpz, hprz, hdep, hwt, hpde, hlen⟩ := h
  dsimp only at *
  have hplm : pl % 256 = pl := Nat.mod_eq_of_lt hpl
  cases pr with
  | false =>
    obtain ⟨hd0, hw0, he0⟩ := hprz rfl
    subst hd0; subst hw0; subst he0
    cases p with
    | false =>
      have hpl0 : pl = 0 := hpz rfl
      subst hpl0
      have hbody : HeadersFrame.serialize_body
          ⟨sid, es, eh, false, false, 0, 0, 0, false, d⟩ = d := by
        simp [HeadersFrame.serialize_body, serialize_padding_data]
      unfold headersFrameParseBody parse_padding_data
      rw [hbody]
      simp only [Bind.bind, Except.bind, pure, Except.pure, if_false,
        Bool.false_eq_true]
      have hfull : pySlice d ((0 : Nat) : Int) ((d.length : Nat) : Int) = d := by
        rw [pySlice_natCast]; simp
      rw [hfull]
      have hd2 : pySlice d ((0 : Nat) : Int) ((d.length : Int) - ((0 : Nat) : Int)) = d := by
        have : (d.length : Int) - ((0 : Nat) : Int) = ((d.length : Nat) : Int) := by omega
        rw [this, pySlice_natCast]; simp
      rw [hd2]
      rw [if_neg (by omega : ¬ ((0 : Nat) ≠ 0 ∧ 0 ≥ d.length))]
      have : d.length - 0 = d.length := by omega
      rw [this]
    | true =>
      have hbody : HeadersFrame.serialize_body
          ⟨sid, es, eh, true, false, pl, 0, 0, false, d⟩ =
          pl :: (d ++ List.replicate pl 0) := by
        simp [HeadersFrame.serialize_body, serialize_padding_data, hplm]
      unfold headersFrameParseBody parse_padding_data
      rw [hbody]
      simp only [Bind.bind, Except.bind, pure, Except.pure, if_true, Bool.false_eq_true, if_false]
      have hrest : pySlice (pl :: (d ++ List.replicate pl 0)) ((1 : Nat) : Int)
          (((pl :: (d ++ List.replicate pl 0)).length : Nat) : Int) =
          d ++ List.replicate pl 0 := by
        rw [pySlice_natCast]; simp
      rw [hrest]
      have hrlen : (d ++ List.replicate pl 0).length = d.length + pl := by simp
      have hd2 : pySlice (d ++ List.replicate pl 0) ((0 : Nat) : Int)
          (((d ++ List.replicate pl 0).length : Int) - ((pl : Nat) : Int)) = d := by
        rw [hrlen]
        have : ((d.length + pl : Nat) : Int) - ((pl : Nat) : Int) =
            ((d.length : Nat) : Int) := by omega
        rw [this, pySlice_natCast, List.take_left]
        rfl
      rw [hd2]
      have hcond : ¬ (pl ≠ 0 ∧ pl ≥ (d ++ List.replicate pl 0).length) := by
        rw [hrlen]
        intro ⟨hne, hge⟩
        rcases hpde hne with hc | hc
        · exact absurd hc (by simp)
        · have : d.length ≠ 0 := by simpa using hc
          omega
      rw [if_neg hcond]
      rw [hrlen]
      have : (pl :: (d ++ List.replicate pl 0)).length = d.length + pl + 1 := by
        simp
      rw [this]
      have : d.length + pl + 1 - 1 = d.length + pl := by omega
      rw [this]
  | true =>
    cases p with
    | false =>
      have hpl0 : pl = 0 := hpz rfl
      subst hpl0
      have hbody : HeadersFrame.serialize_body
          ⟨sid, es, eh, false, true, 0, dep, wt, excl, d⟩ =
          serialize_priority_data dep excl wt ++ (d ++ []) := by
        simp [HeadersFrame.serialize_body, serialize_padding_data]
      unfold headersFrameParseBody parse_padding_data
      rw [hbody]
      simp only [Bind.bind, Except.bind, pure, Except.pure, if_false,
        Bool.false_eq_true, if_true]
      have hfull : pySlice (serialize_priority_data dep excl wt ++ (d ++ []))
          ((0 : Nat) : Int)
          (((serialize_priority_data dep excl wt ++ (d ++ [])).length : Nat) : Int) =
          serialize_priority_data dep excl wt ++ (d ++ []) := by
        rw [pySlice_natCast]; simp
      rw [hfull]
      rw [show serialize_priority_data dep excl wt ++ (d ++ []) =
        serialize_priority_data dep excl wt ++ (d ++ []) from rfl]
      rw [parse_priority_data_roundtrip dep wt excl (d ++ []) hdep hwt]
      simp only [Bind.bind, Except.bind, pure, Except.pure]
      have hplen : (serialize_priority_data dep excl wt).length = 5 := by
        simp [serialize_priority_data, pack32]
      have hlen5 : (serialize_priority_data dep excl wt ++ (d ++ [])).length =
          5 + d.length := by simp [hplen]
      have hd2 : pySlice (serialize_priority_data dep excl wt ++ (d ++ []))
          ((5 : Nat) : Int)
          (((serialize_priority_data dep excl wt ++ (d ++ [])).length : Int)
            - ((0 : Nat) : Int)) = d := by
        rw [hlen5]
        have hj : ((5 + d.length : Nat) : Int) - ((0 : Nat) : Int) =
            ((5 + d.length : Nat) : Int) := by omega
        rw [hj]
        have h5 : ((5 : Nat) : Int) =
            (((serialize_priority_data dep excl wt).length : Nat) : Int) := by
          rw [hplen]
        have hjj : ((5 + d.length : Nat) : Int) =
            (((serialize_priority_data dep excl wt).length + d.length : Nat) : Int) := by
          rw [hplen]
        rw [h5, hjj]
        have := pySlice_append_self (serialize_priority_data dep excl wt) (d ++ [])
        simpa using this
      rw [hd2]
      rw [hlen5]
      rw [if_neg (by omega : ¬ ((0 : Nat) ≠ 0 ∧ 0 ≥ 5 + d.length))]
      have : 5 + d.length - 0 = 5 + d.length := by omega
      rw [this]
    | true =>
      have hbody : HeadersFrame.serialize_body
          ⟨sid, es, eh, true, true, pl, dep, wt, excl, d⟩ =
          pl :: (serialize_priority_data dep excl wt ++ (d ++ List.replicate pl 0)) := by
        simp [HeadersFrame.serialize_body, serialize_padding_data, hplm]
      unfold headersFrameParseBody parse_padding_data
      rw [hbody]
      simp only [Bind.bind, Except.bind, pure, Except.pure, if_true, Bool.false_eq_true, if_false]
      have hrest : pySlice
          (pl :: (serialize_priority_data dep excl wt ++ (d ++ List.replicate pl 0)))
          ((1 : Nat) : Int)
          (((pl :: (serialize_priority_data dep excl wt ++
            (d ++ List.replicate pl 0))).length : Nat) : Int) =
          serialize_priority_data dep excl wt ++ (d ++ List.replicate pl 0) := by
        rw [pySlice_natCast]; simp
      rw [hrest]
      rw [parse_priority_data_roundtrip dep wt excl (d ++ List.replicate pl 0) hdep hwt]
      simp only [Bind.bind, Except.bind, pure, Except.pure]
      have hplen : (serialize_priority_data dep excl wt).length = 5 := by
        simp [serialize_priority_data, pack32]
      have hlen5 : (serialize_priority_data dep excl wt ++
          (d ++ List.replicate pl 0)).length = 5 + d.length + pl := by
        simp [hplen]
        omega
      have hd2 : pySlice (serialize_priority_data dep excl wt ++
          (d ++ List.replicate pl 0)) ((5 : Nat) : Int)
          (((serialize_priority_data dep excl wt ++
            (d ++ List.replicate pl 0)).length : Int) - ((pl : Nat) : Int)) = d := by
        rw [hlen5]
        have hj : ((5 + d.length + pl : Nat) : Int) - ((pl : Nat) : Int) =
            ((5 + d.length : Nat) : Int) := by omega
        rw [hj]
        have hP : serialize_priority_data dep excl wt ++ (d ++ List.replicate pl 0) =
            serialize_priority_data dep excl wt ++ d ++ List.replicate pl 0 := by
          simp
        rw [hP]
        have h5 : ((5 : Nat) : Int) =
            (((serialize_priority_data dep excl wt).length : Nat) : Int) := by
          rw [hplen]
        have hjj : ((5 + d.length : Nat) : Int) =
            (((serialize_priority_data dep excl wt).length + d.length : Nat) : Int) := by
          rw [hplen]
        rw [h5, hjj]
        exact pySlice_triple _ _ _
      rw [hd2]
      rw [hlen5]
      rw [if_neg (by omega : ¬ (pl ≠ 0 ∧ pl ≥ 5 + d.length + pl))]
      have h6 : (pl :: (serialize_priority_data dep excl wt ++
          (d ++ List.replicate pl 0))).length = 5 + d.length + pl + 1 := by
        simp [hplen]
        omega
      rw [h6]
      have h7 : 5 + d.length + pl + 1 - 1 = 5 + d.length + pl := by omega
      rw [h7]

theorem DataFrame_serialize_body_length (f : DataFrame) :
    f.serialize_body.length =
      (if f.padded then 1 else 0) + f.data.length + f.pad_length := by
  obtain ⟨sid, es, p, pl, d⟩ := f
  cases p <;> simp [DataFrame.serialize_body, serialize_padding_data] <;> omega

theorem HeadersFrame_serialize_body_length (f : HeadersFrame) :
    f.serialize_body.length = (if f.padded then 1 else 0) +
      (if f.priority then 5 else 0) + f.data.length + f.pad_length := by
  obtain ⟨sid, es, eh, p, pr, pl, dep, wt, excl, d⟩ := f
  cases p <;> cases pr <;>
    simp [HeadersFrame.serialize_body, serialize_padding_data,
      serialize_priority_data, pack32] <;> omega

theorem settings_flatMap_length (ps : List (Nat × Nat)) :
    (ps.flatMap (fun kv => pack16 (kv.1 % 256) ++ pack32 (kv.2 % 4294967296))).length
      = 6 * ps.length := by
  induction ps with
  | nil => rfl
  | cons kv rest ih =>
      rw [List.flatMap_cons, List.length_append, ih]
      rw [show (pack16 (kv.1 % 256) ++ pack32 (kv.2 % 4294967296)).length = 6
        from rfl]
      simp [Nat.mul_succ]
      omega

theorem PushPromiseFrame_serialize_body_length (f : PushPromiseFrame) :
    f.serialize_body.length = (if f.padded then 1 else 0) + 4 +
      f.data.length + f.pad_length := by
  obtain ⟨sid, eh, p, pl, prom, d⟩ := f
  cases p <;>
    simp [PushPromiseFrame.serialize_body, serialize_padding_data, pack32] <;> omega

/-- Unknown frame types (≥ 11) always take the `ExtensionFrame` fallback of
the `FRAMES` dispatch. -/
theorem parse_body_extension (bl t fl sid : Nat) (b : Bytes) (ht : 10 < t) :
    parse_body ⟨bl, t, fl, sid⟩ b =
      .ok (.extension ⟨t, sid, fl, b, b.length⟩, b.length) := by
  obtain ⟨k, rfl⟩ : ∃ k, t = k + 11 := ⟨t - 11, by omega⟩
  rfl

/-- Claim C1, amended: serializing a well-formed frame of any supported
type and parsing the result yields the original frame, except that the
RST_STREAM error code is unconditionally recorded as 0 by the patched
parser, regardless of the (always well-formed, 4-byte) serialized body. -/
theorem C1_serialize_parse_roundtrip (f : Frame) (h : f.WellFormed) :
    (parseFrameBytes f.serialize).map Prod.fst = .ok (roundtripImage f) := by
  cases f with
  | data df =>
      obtain ⟨hsid, hbytes, hpl, hpz, hlen⟩ := h
      rw [show Frame.serialize (.data df) = serializeHeader
        (DataFrame.serialize_body df).length 0
        (flagBit df.end_stream 1 + flagBit df.padded 8) df.stream_id ++
        df.serialize_body from rfl]
      rw [parseFrameBytes_header _ _ _ _ _ rfl
        (by rw [DataFrame_serialize_body_length]; omega) hsid]
      show ((dataFrameParseBody df.stream_id
        (hasFlag (flagBit df.end_stream 1 + flagBit df.padded 8) 1)
        (hasFlag (flagBit df.end_stream 1 + flagBit df.padded 8) 8)
        df.serialize_body).map (fun fn => (Frame.data fn.1, fn.2))).map Prod.fst
        = _
      rw [hasFlag2_fst _ _ _ _ (Or.inl rfl) rfl, hasFlag2_snd _ _ _ _ (Or.inl rfl) rfl]
      rw [dataFrameParseBody_roundtrip df ⟨hsid, hbytes, hpl, hpz, hlen⟩]
      rfl
  | headers hf =>
      obtain ⟨hsid, hbytes, hpl, hpz, hprz, hdep, hwt, hpde, hlen⟩ := h
      rw [show Frame.serialize (.headers hf) = serializeHeader
        (HeadersFrame.serialize_body hf).length 1
        (flagBit hf.end_stream 1 + flagBit hf.end_headers 4 +
          flagBit hf.padded 8 + flagBit hf.priority 32) hf.stream_id ++
        hf.serialize_body from rfl]
      rw [parseFrameBytes_header _ _ _ _ _ rfl
        (by rw [HeadersFrame_serialize_body_length]; omega) hsid]
      show ((headersFrameParseBody hf.stream_id
        (hasFlag (flagBit hf.end_stream 1 + flagBit hf.end_headers 4 +
          flagBit hf.padded 8 + flagBit hf.priority 32) 1)
        (hasFlag (flagBit hf.end_stream 1 + flagBit hf.end_headers 4 +
          flagBit hf.padded 8 + flagBit hf.priority 32) 4)
        (hasFlag (flagBit hf.end_stream 1 + flagBit hf.end_headers 4 +
          flagBit hf.padded 8 + flagBit hf.priority 32) 8)
        (hasFlag (flagBit hf.end_stream 1 + flagBit hf.end_headers 4 +
          flagBit hf.padded 8 + flagBit hf.priority 32) 32)
        hf.serialize_body).map (fun fn => (Frame.headers fn.1, fn.2))).map Prod.fst
        = _
      rw [hasFlagH1, hasFlagH4, hasFlagH8, hasFlagH32]
      rw [headersParseBody_roundtrip hf
        ⟨hsid, hbytes, hpl, hpz, hprz, hdep, hwt, hpde, hlen⟩]
      rfl
  | priority pf =>
      obtain ⟨hsid, hdep, hwt⟩ := h
      rw [show Frame.serialize (.priority pf) = serializeHeader
        (PriorityFrame.serialize_body pf).length 2 0 pf.stream_id ++
        pf.serialize_body from rfl]
      rw [parseFrameBytes_header _ _ _ _ _ rfl
        (by simp [PriorityFrame.serialize_body, serialize_priority_data, pack32])
        hsid]
      show ((priorityFrameParseBody pf.stream_id pf.serialize_body).map
        (fun fn => (Frame.priority fn.1, fn.2))).map Prod.fst = _
      rw [priorityFrameParseBody_roundtrip pf ⟨hsid, hdep, hwt⟩]
      rfl
  | rst_stream rf =>
      obtain ⟨hsid, hec⟩ := h
      rw [show Frame.serialize (.rst_stream rf) = serializeHeader
        (RstStreamFrame.serialize_body rf).length 3 0 rf.stream_id ++
        rf.serialize_body from rfl]
      rw [parseFrameBytes_header _ _ _ _ _ rfl
        (by simp [RstStreamFrame.serialize_body, pack32]) hsid]
      rfl
  | settings sf =>
      obtain ⟨hsid, hkv, hnd, hlen⟩ := h
      rw [show Frame.serialize (.settings sf) = serializeHeader
        (SettingsFrame.serialize_body sf).length 4 (flagBit sf.ack 1)
        sf.stream_id ++ sf.serialize_body from rfl]
      rw [parseFrameBytes_header _ _ _ _ _ rfl
        (by rw [show SettingsFrame.serialize_body sf = sf.settings.flatMap
            (fun kv => pack16 (kv.1 % 256) ++ pack32 (kv.2 % 4294967296)) from rfl,
          settings_flatMap_length]; omega) hsid]
      show ((new_settings_parse_body sf.stream_id (hasFlag (flagBit sf.ack 1) 1)
        sf.serialize_body).map (fun fn => (Frame.settings fn.1, fn.2))).map Prod.fst
        = _
      rw [hasFlag1 _ _ (Or.inl rfl)]
      rw [settingsParseBody_roundtrip sf ⟨hsid, hkv, hnd, hlen⟩]
      rfl
  | push_promise pf =>
      obtain ⟨hsid, hbytes, hpl, hpz, hprom, hlen⟩ := h
      rw [show Frame.serialize (.push_promise pf) = serializeHeader
        (PushPromiseFrame.serialize_body pf).length 5
        (flagBit pf.end_headers 4 + flagBit pf.padded 8) pf.stream_id ++
        pf.serialize_body from rfl]
      rw [parseFrameBytes_header _ _ _ _ _ rfl
        (by rw [PushPromiseFrame_serialize_body_length]; omega) hsid]
      show ((new_push_promise_parse_body pf.stream_id
        (hasFlag (flagBit pf.end_headers 4 + flagBit pf.padded 8) 4)
        (hasFlag (flagBit pf.end_headers 4 + flagBit pf.padded 8) 8)
        pf.serialize_body).map (fun fn => (Frame.push_promise fn.1, fn.2))).map
        Prod.fst = _
      rw [hasFlag2_fst _ _ _ _ (Or.inr rfl) rfl, hasFlag2_snd _ _ _ _ (Or.inr rfl) rfl]
      rw [pushPromiseParseBody_roundtrip pf ⟨hsid, hbytes, hpl, hpz, hprom, hlen⟩]
      rfl
  | ping pg =>
      obtain ⟨hsid, hbytes, hlen⟩ := h
      rw [show Frame.serialize (.ping pg) = serializeHeader
        (PingFrame.serialize_body pg).length 6 (flagBit pg.ack 1)
        pg.stream_id ++ pg.serialize_body from rfl]
      rw [parseFrameBytes_header _ _ _ _ _ rfl
        (by simp [PingFrame.serialize_body]; omega) hsid]
      show ((pingFrameParseBody pg.stream_id (hasFlag (flagBit pg.ack 1) 1)
        pg.serialize_body).map (fun fn => (Frame.ping fn.1, fn.2))).map Prod.fst
        = _
      rw [hasFlag1 _ _ (Or.inl rfl)]
      rw [pingFrameParseBody_roundtrip pg ⟨hsid, hbytes, hlen⟩]
      rfl
  | goaway gf =>
      obtain ⟨hsid, hlast, hec, hbytes, hlen⟩ := h
      rw [show Frame.serialize (.goaway gf) = serializeHeader
        (GoAwayFrame.serialize_body gf).length 7 0 gf.stream_id ++
        gf.serialize_body from rfl]
      rw [parseFrameBytes_header _ _ _ _ _ rfl
        (by simp [GoAwayFrame.serialize_body, pack32]; omega) hsid]
      show ((goawayFrameParseBody gf.stream_id gf.serialize_body).map
        (fun fn => (Frame.goaway fn.1, fn.2))).map Prod.fst = _
      rw [goawayFrameParseBody_roundtrip gf ⟨hsid, hlast, hec, hbytes, hlen⟩]
      rfl
  | window_update wf =>
      obtain ⟨hsid, hincr⟩ := h
      rw [show Frame.serialize (.window_update wf) = serializeHeader
        (WindowUpdateFrame.serialize_body wf).length 8 0 wf.stream_id ++
        wf.serialize_body from rfl]
      rw [parseFrameBytes_header _ _ _ _ _ rfl
        (by simp [WindowUpdateFrame.serialize_body, pack32]) hsid]
      show ((new_window_update_parse_body wf.stream_id wf.serialize_body).map
        (fun fn => (Frame.window_update fn.1, fn.2))).map Prod.fst = _
      rw [windowUpdateParseBody_roundtrip wf ⟨hsid, hincr⟩]
      rfl
  | continuation cf =>
      obtain ⟨hsid, hbytes, hlen⟩ := h
      rw [show Frame.serialize (.continuation cf) = serializeHeader
        (ContinuationFrame.serialize_body cf).length 9 (flagBit cf.end_headers 4)
        cf.stream_id ++ cf.serialize_body from rfl]
      rw [parseFrameBytes_header _ _ _ _ _ rfl
        (by simpa [ContinuationFrame.serialize_body] using hlen) hsid]
      show ((continuationFrameParseBody cf.stream_id
        (hasFlag (flagBit cf.end_headers 4) 4) cf.serialize_body).map
        (fun fn => (Frame.continuation fn.1, fn.2))).map Prod.fst = _
      rw [hasFlag1 _ _ (Or.inr rfl)]
      rw [continuationParseBody_roundtrip cf]
      rfl
  | altsvc af =>
      obtain ⟨hsid, hob, hfb, holen, hlen⟩ := h
      rw [show Frame.serialize (.altsvc af) = serializeHeader
        (AltSvcFrame.serialize_body af).length 10 0 af.stream_id ++
        af.serialize_body from rfl]
      rw [parseFrameBytes_header _ _ _ _ _ rfl
        (by simp [AltSvcFrame.serialize_body, pack16]; omega) hsid]
      show ((altsvcFrameParseBody af.stream_id af.serialize_body).map
        (fun fn => (Frame.altsvc fn.1, fn.2))).map Prod.fst = _
      rw [altsvcParseBody_roundtrip af ⟨hsid, hob, hfb, holen, hlen⟩]
      rfl
  | extension ef =>
      obtain ⟨hsid, hty, hty10, hfl, hbytes, hbl, hlen⟩ := h
      rw [show Frame.serialize (.extension ef) = serializeHeader
        ef.body_len ef.ty ef.flag_byte ef.stream_id ++ ef.body from rfl]
      rw [parseFrameBytes_header _ _ _ _ _ hbl.symm (by omega) hsid]
      rw [parse_body_extension _ _ _ _ _ hty10]
      rw [show roundtripImage (.extension ef) = .extension ef from rfl]
      obtain ⟨t, sid, fl, b, bl⟩ := ef
      dsimp only at hbl
      subst hbl
      rfl

/-- C1 counterexample: a well-formed RST_STREAM frame with nonzero error
code 1 serializes to the nominal 4-byte body `[0,0,0,1]`, yet parsing the
serialized bytes yields error code 0, not the original code — the patched
parser zeroes the error code even when the body length is the conforming
4 bytes, so the sole-exclusion clause of the claim is false. -/
theorem C1_counterexample :
    Frame.WellFormed (.rst_stream ⟨1, 1⟩) ∧
    RstStreamFrame.serialize_body ⟨1, 1⟩ = [0, 0, 0, 1] ∧
    (parseFrameBytes (Frame.serialize (.rst_stream ⟨1, 1⟩))).map Prod.fst =
      .ok (.rst_stream ⟨1, 0⟩) ∧
    (parseFrameBytes (Frame.serialize (.rst_stream ⟨1, 1⟩))).map Prod.fst ≠
      .ok (.rst_stream ⟨1, 1⟩) := by decide

/-- C1 witness: the amended round-trip theorem applied to a concrete
well-formed PING frame. -/
theorem C1_roundtrip_witness :
    Frame.WellFormed (.ping ⟨0, false, [1, 2, 3, 4, 5, 6, 7, 8]⟩) ∧
    (parseFrameBytes (Frame.serialize
      (.ping ⟨0, false, [1, 2, 3, 4, 5, 6, 7, 8]⟩))).map Prod.fst =
      .ok (roundtripImage (.ping ⟨0, false, [1, 2, 3, 4, 5, 6, 7, 8]⟩)) :=
  ⟨by decide, C1_serialize_parse_roundtrip _ (by decide)⟩

/-! ## Frame reassembly buffer

`h2.frame_buffer.FrameBuffer` with the four patched methods of
`http_2_overwrite.py`: `FrameBuffer__init__`, `new_add_data` (preface
bytes are discarded *without* the byte-for-byte comparison the unpatched
method performs), `new_update_header_buffer` (CONTINUATION frames are
rewritten into synthetic HEADERS frames instead of being validated
against a pending header sequence; `_headers_buffer` is never touched)
and `new__next__`. -/

/-- The 24-byte client connection preface
`PRI * HTTP/2.0\r\n\r\nSM\r\n\r\n`. -/
def clientPrefaceBytes : Bytes :=
  [80, 82, 73, 32, 42, 32, 72, 84, 84, 80, 47, 50, 46, 48,
   13, 10, 13, 10, 83, 77, 13, 10, 13, 10]

structure FrameBuffer where
  data : Bytes
  max_frame_size : Nat
  preamble : Bytes
  preamble_len : Nat
  headers_buffer : List Frame
deriving DecidableEq, Repr

/-- Patched `FrameBuffer.__init__`. -/
def FrameBuffer__init__ (server skip_client_connection_preface : Bool) :
    FrameBuffer :=
  let preamble : Bytes := if server then clientPrefaceBytes else []
  { data := []
    max_frame_size := 0
    preamble := preamble
    preamble_len := if skip_client_connection_preface then 0 else preamble.length
    headers_buffer := [] }

/-- Patched `FrameBuffer.add_data` (`new_add_data`): while preface bytes
are pending, the first `min(preamble_len, len(data))` input bytes are
dropped unconditionally — the comparison
`self._preamble[:of_which_preamble] != data[:of_which_preamble]` of the
unpatched method was removed. -/
def new_add_data (self : FrameBuffer) (data : Bytes) : FrameBuffer :=
  if self.preamble_len ≠ 0 then
    let data_len := data.length
    let of_which_preamble := min self.preamble_len data_len
    { self with
      data := self.data ++ data.drop of_which_preamble
      preamble_len := self.preamble_len - of_which_preamble
      preamble := self.preamble.drop of_which_preamble }
  else
    { self with data := self.data ++ data }

/-- Patched `FrameBuffer._update_header_buffer`
(`new_update_header_buffer`): HEADERS and PUSH_PROMISE pass through, a
CONTINUATION frame is converted in place into a HEADERS frame carrying
the same stream id, payload and flag set (the assigned `Flags` object
holds at most END_HEADERS; the remaining HEADERS fields keep their
constructor defaults), and every other frame passes through. -/
def new_update_header_buffer : Frame → Frame
  | .continuation cf =>
      .headers { stream_id := cf.stream_id, end_stream := false,
                 end_headers := cf.end_headers, padded := false,
                 priority := false, pad_length := 0, depends_on := 0,
                 stream_weight := 0, exclusive := false, data := cf.data }
  | f => f

/-- Result of one `FrameBuffer.__next__` call: `StopIteration` (more data
needed), an exception, or a parsed frame plus the remaining buffer. -/
inductive NextResult where
  | needMoreData
  | fail (e : H2Err)
  | frame (f : Frame) (rest : Bytes)
deriving DecidableEq, Repr

/-- Patched `FrameBuffer.__next__` (`new__next__`) as a function of the
buffered bytes (the only state it reads or consumes): bail below 9 bytes
or below a full frame, parse the body, translate codec exceptions
(`InvalidDataError` → `ProtocolError`, `InvalidFrameError` →
`FrameDataMissingError`; an `InvalidPaddingError` propagates unhandled —
the patched method dropped that clause), rewrite via the header buffer,
and consume the frame from the buffer.  `_update_header_buffer` never
returns `None` in the patched code, so the `self.__next__()` recursion
at the end is dead and is not modelled. -/
def new__next__ (data : Bytes) : NextResult :=
  if data.length < 9 then .needMoreData
  else
    match parse_frame_header (data.take 9) with
    | .error _ => .fail .protocolError
    | .ok h =>
      if data.length < h.length + 9 then .needMoreData
      else
        match parse_body h (pySlice data (9 : Int) ((9 + h.length : Nat) : Int)) with
        | .error .invalidDataError => .fail .protocolError
        | .error .invalidFrameError => .fail .frameDataMissingError
        | .error e => .fail e
        | .ok fn => .frame (new_update_header_buffer fn.1) (data.drop (9 + h.length))

/-- A produced frame consumes at least 9 bytes of the buffer. -/
theorem new__next___frame_length (data : Bytes) (f : Frame) (rest : Bytes)
    (h : new__next__ data = .frame f rest) : rest.length < data.length := by
  unfold new__next__ at h
  by_cases h9 : data.length < 9
  · simp [h9] at h
  · rw [if_neg h9] at h
    match hh : parse_frame_header (data.take 9) with
    | .error e => rw [hh] at h; simp at h
    | .ok hd =>
        rw [hh] at h
        dsimp only at h
        by_cases hlen : data.length < hd.length + 9
        · simp [hlen] at h
        · rw [if_neg hlen] at h
          match hb : parse_body hd (pySlice data (9 : Int) ((9 + hd.length : Nat) : Int)) with
          | .error e => rw [hb] at h; cases e <;> simp at h
          | .ok fn =>
              rw [hb] at h
              simp only [NextResult.frame.injEq] at h
              rw [← h.2, List.length_drop]
              omega

/-- Fuel-indexed repeated frame extraction; `drainAll` instantiates the
fuel with the buffer length, which the length decrease above shows is
always sufficient. -/
def drainAllFuel : Nat → Bytes → List Frame × Bytes
  | 0, data => ([], data)
  | fuel + 1, data =>
      match new__next__ data with
      | .frame f rest =>
          let next := drainAllFuel fuel rest
          (f :: next.1, next.2)
      | _ => ([], data)

/-- Pulling frames out of the buffer until `__next__` stops with
`StopIteration` or an exception: the frames produced and the bytes left. -/
def drainAll (data : Bytes) : List Frame × Bytes := drainAllFuel data.length data

theorem drainAll_needMore (d : Bytes) (h : new__next__ d = .needMoreData) :
    drainAll d = ([], d) := by
  unfold drainAll
  rcases hdl : d.length with _ | k
  · rfl
  · unfold drainAllFuel; rw [h]

theorem drainAll_fail (d : Bytes) (er : H2Err) (h : new__next__ d = .fail er) :
    drainAll d = ([], d) := by
  unfold drainAll
  rcases hdl : d.length with _ | k
  · rfl
  · unfold drainAllFuel; rw [h]

theorem drainAllFuel_sufficient :
    ∀ (fuel : Nat) (d : Bytes), d.length ≤ fuel → drainAllFuel fuel d = drainAll d := by
  intro fuel
  induction fuel using Nat.strong_induction_on with
  | _ fuel ih =>
      intro d hd
      rcases hf : fuel with _ | m
      · subst hf
        have h0 : d.length = 0 := by omega
        unfold drainAll
        rw [h0]
      · subst hf
        match hnext : new__next__ d with
        | .needMoreData =>
            simp only [drainAllFuel]
            rw [hnext]
            exact (drainAll_needMore d hnext).symm
        | .fail er =>
            simp only [drainAllFuel]
            rw [hnext]
            exact (drainAll_fail d er hnext).symm
        | .frame f rest =>
            have hlt := new__next___frame_length d f rest hnext
            rcases hdl : d.length with _ | k
            · omega
            · simp only [drainAllFuel]
              rw [hnext]
              dsimp only
              rw [ih m (by omega) rest (by omega)]
              unfold drainAll
              rw [hdl]
              simp only [drainAllFuel]
              rw [hnext]
              dsimp only
              rw [ih k (by omega) rest (by omega)]
              rfl

theorem drainAll_frame (d : Bytes) (f : Frame) (rest : Bytes)
    (h : new__next__ d = .frame f rest) :
    drainAll d = (f :: (drainAll rest).1, (drainAll rest).2) := by
  have hlt := new__next___frame_length d f rest h
  rcases hdl : d.length with _ | k
  · omega
  · unfold drainAll
    rw [hdl]
    simp only [drainAllFuel]
    rw [h]
    dsimp only
    rw [drainAllFuel_sufficient k rest (by omega)]
    rfl

/-- A produced frame is unaffected by bytes arriving after it. -/
theorem new__next___append_frame (d e : Bytes) (f : Frame) (rest : Bytes)
    (h : new__next__ d = .frame f rest) :
    new__next__ (d ++ e) = .frame f (rest ++ e) := by
  unfold new__next__ at h
  split at h
  · simp at h
  · rename_i h9
    split at h
    · simp at h
    · rename_i hd hh
      split at h
      · simp at h
      · rename_i hlen
        split at h
        · simp at h
        · simp at h
        · simp at h
        · rename_i fn hb
          simp only [NextResult.frame.injEq] at h
          obtain ⟨hf, hrest⟩ := h
          unfold new__next__
          rw [if_neg (by simp; omega : ¬ (d ++ e).length < 9)]
          have htake : (d ++ e).take 9 = d.take 9 := by
            rw [List.take_append_eq_append_take]
            rw [show 9 - d.length = 0 from by omega]
            simp
          rw [htake, hh]
          dsimp only
          rw [if_neg (by simp; omega : ¬ (d ++ e).length < hd.length + 9)]
          have hslice : pySlice (d ++ e) (9 : Int) ((9 + hd.length : Nat) : Int) =
              pySlice d (9 : Int) ((9 + hd.length : Nat) : Int) := by
            rw [show (9 : Int) = ((9 : Nat) : Int) from rfl]
            rw [pySlice_natCast, pySlice_natCast]
            rw [List.take_append_eq_append_take]
            rw [show 9 + hd.length - d.length = 0 from by omega]
            simp
          rw [hslice, hb]
          dsimp only
          have hdrop : (d ++ e).drop (9 + hd.length) =
              d.drop (9 + hd.length) ++ e := by
            rw [List.drop_append_eq_append_drop]
            rw [show 9 + hd.length - d.length = 0 from by omega]
            simp
          rw [hdrop, hf, hrest]

/-- An exception raised on a complete frame is unaffected by bytes
arriving after it. -/
theorem new__next___append_fail (d e : Bytes) (er : H2Err)
    (h : new__next__ d = .fail er) : new__next__ (d ++ e) = .fail er := by
  unfold new__next__ at h
  split at h
  · simp at h
  · rename_i h9
    have h9' : ¬ (d ++ e).length < 9 := by simp; omega
    have htake : (d ++ e).take 9 = d.take 9 := by
      rw [List.take_append_eq_append_take]
      rw [show 9 - d.length = 0 from by omega]
      simp
    split at h
    · rename_i e2 hh
      unfold new__next__
      rw [if_neg h9', htake, hh]
      exact h
    · rename_i hd hh
      split at h
      · simp at h
      · rename_i hlen
        have hlen' : ¬ (d ++ e).length < hd.length + 9 := by simp; omega
        have hslice : pySlice (d ++ e) (9 : Int) ((9 + hd.length : Nat) : Int) =
            pySlice d (9 : Int) ((9 + hd.length : Nat) : Int) := by
          rw [show (9 : Int) = ((9 : Nat) : Int) from rfl]
          rw [pySlice_natCast, pySlice_natCast]
          rw [List.take_append_eq_append_take]
          rw [show 9 + hd.length - d.length = 0 from by omega]
          simp
        split at h
        · rename_i hb
          unfold new__next__
          rw [if_neg h9', htake, hh]
          dsimp only
          rw [if_neg hlen', hslice, hb]
          exact h
        · rename_i hb
          unfold new__next__
          rw [if_neg h9', htake, hh]
          dsimp only
          rw [if_neg hlen', hslice, hb]
          exact h
        · rename_i e2 hne1 hne2 hb
          unfold new__next__
          rw [if_neg h9', htake, hh]
          dsimp only
          rw [if_neg hlen', hslice]
          rw [hb]
          cases e2 <;> simp_all
        · rename_i fn hb
          simp at h

/-- Draining a buffer extended by more bytes yields the frames of the
original buffer followed by the frames drained from the leftover plus
the new bytes. -/
theorem drainAll_append_aux :
    ∀ (n : Nat) (d : Bytes), d.length ≤ n → ∀ (e : Bytes),
      drainAll (d ++ e) =
        ((drainAll d).1 ++ (drainAll ((drainAll d).2 ++ e)).1,
         (drainAll ((drainAll d).2 ++ e)).2) := by
  intro n
  induction n using Nat.strong_induction_on with
  | _ n ih =>
      intro d hd e
      match hnext : new__next__ d with
      | .needMoreData =>
          rw [drainAll_needMore d hnext]
          simp
      | .fail er =>
          rw [drainAll_fail d er hnext]
          simp
      | .frame f rest =>
          have hlt := new__next___frame_length d f rest hnext
          rw [drainAll_frame d f rest hnext]
          rw [drainAll_frame (d ++ e) f (rest ++ e)
            (new__next___append_frame d e f rest hnext)]
          rw [ih rest.length (by omega) rest (le_refl _) e]
          simp

theorem drainAll_append (d e : Bytes) :
    drainAll (d ++ e) =
      ((drainAll d).1 ++ (drainAll ((drainAll d).2 ++ e)).1,
       (drainAll ((drainAll d).2 ++ e)).2) :=
  drainAll_append_aux d.length d (le_refl _) e

/-- The leftover of a drain cannot be drained further. -/
theorem drainAll_residual_aux :
    ∀ (n : Nat) (d : Bytes), d.length ≤ n →
      drainAll ((drainAll d).2) = ([], (drainAll d).2) := by
  intro n
  induction n using Nat.strong_induction_on with
  | _ n ih =>
      intro d hd
      match hnext : new__next__ d with
      | .needMoreData =>
          rw [drainAll_needMore d hnext]
          exact drainAll_needMore d hnext
      | .fail er =>
          rw [drainAll_fail d er hnext]
          exact drainAll_fail d er hnext
      | .frame f rest =>
          have hlt := new__next___frame_length d f rest hnext
          rw [drainAll_frame d f rest hnext]
          exact ih rest.length (by omega) rest (le_refl _)

theorem drainAll_residual (d : Bytes) :
    drainAll ((drainAll d).2) = ([], (drainAll d).2) :=
  drainAll_residual_aux d.length d (le_refl _)

/-- Field-level description of `new_add_data` (both branches): the first
`min(preamble_len, len(data))` bytes of the chunk are discarded, whatever
their values. -/
theorem new_add_data_spec (b : FrameBuffer) (c : Bytes) :
    new_add_data b c =
      { b with
        data := b.data ++ c.drop (min b.preamble_len c.length)
        preamble_len := b.preamble_len - min b.preamble_len c.length
        preamble := b.preamble.drop (min b.preamble_len c.length) } := by
  unfold new_add_data
  by_cases hp : b.preamble_len ≠ 0
  · rw [if_pos hp]
  · rw [if_neg hp]
    push_neg at hp
    simp [hp]

theorem new_add_data_append (b : FrameBuffer) (a c : Bytes) :
    new_add_data (new_add_data b a) c = new_add_data b (a ++ c) := by
  rw [new_add_data_spec b a, new_add_data_spec b (a ++ c), new_add_data_spec]
  obtain ⟨data, mfs, pre, pl, hb⟩ := b
  dsimp only
  rcases le_total pl a.length with hle | hle
  · have h1 : min pl a.length = pl := by omega
    have h2 : pl - pl = 0 := by omega
    have h3 : min pl (a ++ c).length = pl := by simp; omega
    simp only [h1, h2, h3, Nat.zero_min, List.drop_zero, Nat.sub_zero,
      FrameBuffer.mk.injEq, and_true, true_and]
    rw [List.drop_append_eq_append_drop]
    rw [show pl - a.length = 0 from by omega]
    simp [List.append_assoc]
  · have h1 : min pl a.length = a.length := by omega
    have h3 : min pl (a ++ c).length = a.length + min (pl - a.length) c.length := by
      simp; omega
    simp only [h1, h3, FrameBuffer.mk.injEq, List.length_drop, true_and, and_true]
    refine ⟨?_, ?_, ?_⟩
    · rw [List.drop_append_eq_append_drop]
      rw [show a.length + min (pl - a.length) c.length - a.length =
        min (pl - a.length) c.length from by omega]
      rw [List.drop_eq_nil_of_le
        (by omega : a.length ≤ a.length + min (pl - a.length) c.length)]
      simp
    · rw [List.drop_drop]
    · omega

/-- Pushing chunks one at a time equals pushing their concatenation. -/
theorem foldl_add_data_join (chunks : List Bytes) :
    ∀ (b : FrameBuffer), chunks.foldl new_add_data b = new_add_data b chunks.join := by
  induction chunks with
  | nil =>
      intro b
      rw [show ([] : List Bytes).join = [] from rfl]
      rw [new_add_data_spec]
      simp
  | cons c cs ih =>
      intro b
      rw [List.foldl_cons, ih (new_add_data b c), List.join]
      exact new_add_data_append b c cs.join

/-- Drain the buffer, returning the produced frames and the buffer with
the unconsumed bytes. -/
def drainBuffer (b : FrameBuffer) : List Frame × FrameBuffer :=
  ((drainAll b.data).1, { b with data := (drainAll b.data).2 })

/-- Feed chunks one by one, draining all available frames after each
push; returns the concatenation of all frames produced. -/
def pushAndDrainAll (b : FrameBuffer) : List Bytes → List Frame × FrameBuffer
  | [] => ([], b)
  | c :: cs =>
      let step := drainBuffer (new_add_data b c)
      let tail := pushAndDrainAll step.2 cs
      (step.1 ++ tail.1, tail.2)

/-- Draining after one more push splits into the frames already
available and the frames unlocked by the new bytes. -/
theorem drainBuffer_add_split (b : FrameBuffer) (c : Bytes) :
    drainBuffer (new_add_data b c) =
      ((drainAll b.data).1 ++
        (drainBuffer (new_add_data (drainBuffer b).2 c)).1,
       (drainBuffer (new_add_data (drainBuffer b).2 c)).2) := by
  obtain ⟨data, mfs, pre, pl, hbuf⟩ := b
  unfold drainBuffer
  rw [new_add_data_spec, new_add_data_spec]
  dsimp only
  rw [drainAll_append data (c.drop (min pl c.length))]

theorem pushAndDrainAll_quiescent (chunks : List Bytes) :
    ∀ (b : FrameBuffer), drainAll b.data = ([], b.data) →
      pushAndDrainAll b chunks = drainBuffer (new_add_data b chunks.join) := by
  induction chunks with
  | nil =>
      intro b hq
      have hadd : new_add_data b [] = b := by
        rw [new_add_data_spec]; simp
      rw [show ([] : List Bytes).join = [] from rfl, hadd]
      unfold pushAndDrainAll drainBuffer
      rw [hq]
  | cons c cs ih =>
      intro b hq
      show ((drainBuffer (new_add_data b c)).1 ++
          (pushAndDrainAll (drainBuffer (new_add_data b c)).2 cs).1,
        (pushAndDrainAll (drainBuffer (new_add_data b c)).2 cs).2) = _
      have hq2 : drainAll ((drainBuffer (new_add_data b c)).2).data =
          ([], ((drainBuffer (new_add_data b c)).2).data) := by
        unfold drainBuffer
        exact drainAll_residual (new_add_data b c).data
      rw [ih _ hq2]
      rw [show (c :: cs).join = c ++ cs.join from rfl]
      rw [← new_add_data_append b c cs.join]
      rw [drainBuffer_add_split (new_add_data b c) cs.join]
      rfl

/-- C4: for every byte sequence and every partition of it into chunks,
feeding the chunks one by one to a fresh frame buffer via
`new_add_data`, repeatedly pulling frames with `new__next__` after each
push, produces exactly the frames (and leaves exactly the residual
buffer) of pushing the whole concatenated sequence in a single call. -/
theorem C4_chunk_independence (server skip_preface : Bool)
    (chunks : List Bytes) :
    pushAndDrainAll (FrameBuffer__init__ server skip_preface) chunks =
      drainBuffer
        (new_add_data (FrameBuffer__init__ server skip_preface)
          chunks.join) :=
  pushAndDrainAll_quiescent chunks _ rfl

/-- C6 counterexample: a server-side buffer expecting the client preface
fully discards 24 bytes of `X` (0x58) even though they do not match the
preface byte-for-byte, contradicting "input bytes that do not match the
pending preface are not discarded". -/
theorem C6_counterexample :
    List.replicate 24 88 ≠ clientPrefaceBytes ∧
    (new_add_data (FrameBuffer__init__ true false)
        (List.replicate 24 88)).data = [] ∧
    (new_add_data (FrameBuffer__init__ true false)
        (List.replicate 24 88)).preamble_len = 0 := by
  refine ⟨by decide, ?_, ?_⟩ <;> rfl

/-- C6 (amended): while a client preface is pending, `new_add_data`
discards the first `min(preamble_len, len(input))` bytes of the input
unconditionally — regardless of whether they match the expected preface
— continuing across multiple calls until `preamble_len` reaches 0, and
appends the remainder to the internal buffer. -/
theorem C6_push_discards_unconditionally (b : FrameBuffer)
    (chunks : List Bytes) :
    (chunks.foldl new_add_data b).data =
      b.data ++
        chunks.join.drop (min b.preamble_len chunks.join.length) ∧
    (chunks.foldl new_add_data b).preamble_len =
      b.preamble_len - min b.preamble_len chunks.join.length := by
  rw [foldl_add_data_join, new_add_data_spec]
  exact ⟨rfl, rfl⟩

/-! ## Setting-value validation

`new_validate_setting` replaces `h2.settings._validate_setting`: every
(setting, value) pair is reported as error-free. -/

/-- Patched `_validate_setting` (`new_validate_setting`): the function
body is `return 0` — no setting value is ever rejected. -/
def new_validate_setting (setting value : Nat) : Nat := 0

/-- Parsing the encoding of a `(u16 id, u32 value)` pair list recovers
the pairs verbatim. -/
theorem parseSettingsPairs_encode (ps : List (Nat × Nat))
    (h : ∀ kv ∈ ps, kv.1 < 65536 ∧ kv.2 < 4294967296) :
    parseSettingsPairs (ps.flatMap (fun kv => pack16 kv.1 ++ pack32 kv.2))
      = ps := by
  induction ps with
  | nil => rfl
  | cons kv rest ih =>
      obtain ⟨k, v⟩ := kv
      have hk := (h (k, v) (by simp)).1
      have hv := (h (k, v) (by simp)).2
      have hrest : ∀ kv ∈ rest, kv.1 < 65536 ∧ kv.2 < 4294967296 := by
        intro x hx; exact h x (by simp [hx])
      rw [List.flatMap_cons]
      have ihr := ih hrest
      revert ihr
      generalize (rest.flatMap fun kv => pack16 kv.1 ++ pack32 kv.2) = T
      intro ihr
      simp only [pack16, pack32, List.cons_append, List.nil_append,
        parseSettingsPairs, ihr]
      have h1 : k / 256 % 256 * 256 + k % 256 = k := by omega
      have h2 : ((v / 16777216 % 256 * 256 + v / 65536 % 256) * 256
          + v / 256 % 256) * 256 + v % 256 = v := by omega
      rw [h1, h2]
      simp [ihr]

theorem settings_encode_length (ps : List (Nat × Nat)) :
    (ps.flatMap (fun kv => pack16 kv.1 ++ pack32 kv.2)).length
      = 6 * ps.length := by
  induction ps with
  | nil => rfl
  | cons kv rest ih =>
      rw [List.flatMap_cons, List.length_append, ih]
      rw [show (pack16 kv.1 ++ pack32 kv.2).length = 6 from rfl]
      simp only [List.length_cons]
      omega

/-- `parseSettingsPairs` consumes exactly the complete leading 6-byte
chunks. -/
theorem parseSettingsPairs_length (b : Bytes) :
    (parseSettingsPairs b).length = b.length / 6 := by
  match b with
  | n1 :: n0 :: v3 :: v2 :: v1 :: v0 :: rest =>
      rw [parseSettingsPairs]
      have ih := parseSettingsPairs_length rest
      simp only [List.length_cons, ih]
      omega
  | [] => rfl
  | [_] => simp [parseSettingsPairs]
  | [_, _] => simp [parseSettingsPairs]
  | [_, _, _] => simp [parseSettingsPairs]
  | [_, _, _, _] => simp [parseSettingsPairs]
  | [_, _, _, _, _] => simp [parseSettingsPairs]
termination_by b.length

/-- The trailing `len % 6` bytes play no part in the parsed pairs. -/
theorem parseSettingsPairs_take (b : Bytes) :
    parseSettingsPairs (b.take (b.length / 6 * 6)) = parseSettingsPairs b := by
  match b with
  | n1 :: n0 :: v3 :: v2 :: v1 :: v0 :: rest =>
      have ih := parseSettingsPairs_take rest
      have hlen : (n1 :: n0 :: v3 :: v2 :: v1 :: v0 :: rest).length / 6 * 6
          = rest.length / 6 * 6 + 6 := by
        simp only [List.length_cons]
        omega
      rw [hlen]
      rw [show (n1 :: n0 :: v3 :: v2 :: v1 :: v0 :: rest).take
        (rest.length / 6 * 6 + 6) = n1 :: n0 :: v3 :: v2 :: v1 :: v0 ::
        rest.take (rest.length / 6 * 6) from rfl]
      rw [parseSettingsPairs, parseSettingsPairs, ih]
  | [] => rfl
  | [_] => simp [parseSettingsPairs]
  | [_, _] => simp [parseSettingsPairs]
  | [_, _, _] => simp [parseSettingsPairs]
  | [_, _, _, _] => simp [parseSettingsPairs]
  | [_, _, _, _, _] => simp [parseSettingsPairs]
termination_by b.length

/-- C5: a SETTINGS body made of (u16 id, u32 value) pairs with distinct
identifiers parses without error, every value is stored verbatim, the
recorded body length is the full length, and the patched per-setting
validation reports 0 (NO_ERROR) for every (setting, value) pair. -/
theorem C5_settings_unvalidated (sid : Nat) (ack : Bool)
    (ps : List (Nat × Nat))
    (h : ∀ kv ∈ ps, kv.1 < 65536 ∧ kv.2 < 4294967296)
    (hnd : (ps.map Prod.fst).Nodup) :
    new_settings_parse_body sid ack
        (ps.flatMap (fun kv => pack16 kv.1 ++ pack32 kv.2)) =
      .ok ({ stream_id := sid, ack, settings := ps }, 6 * ps.length) ∧
    ∀ setting value, new_validate_setting setting value = 0 := by
  constructor
  · unfold new_settings_parse_body
    rw [parseSettingsPairs_encode ps h, settings_encode_length]
    rw [foldl_dictInsert_nodup ps [] (by simpa using hnd)]
    rfl
  · intro s v; rfl

/-- C5 witness: `ENABLE_PUSH` (identifier 2) set to the out-of-range
value 7 is accepted and stored as 7. -/
theorem C5_settings_witness :
    (∀ kv ∈ [((2 : Nat), (7 : Nat))], kv.1 < 65536 ∧ kv.2 < 4294967296) ∧
    (([((2 : Nat), (7 : Nat))].map Prod.fst).Nodup) ∧
    (new_settings_parse_body 3 false
        ([((2 : Nat), (7 : Nat))].flatMap
          (fun kv => pack16 kv.1 ++ pack32 kv.2)) =
      .ok ({ stream_id := 3, ack := false, settings := [(2, 7)] }, 6) ∧
    ∀ setting value, new_validate_setting setting value = 0) :=
  ⟨by decide, by decide,
    C5_settings_unvalidated 3 false [(2, 7)] (by decide) (by decide)⟩

/-- C10: a SETTINGS body whose length is not a multiple of 6 parses
without error; the stored pairs come from the complete leading 6-byte
chunks alone (exactly `len / 6` of them, the 1-to-5-byte remainder
ignored), and `body_len` is the full length, remainder included. -/
theorem C10_settings_remainder_ignored (sid : Nat) (ack : Bool) (b : Bytes)
    (h : b.length % 6 ≠ 0) :
    new_settings_parse_body sid ack b =
      .ok ({ stream_id := sid, ack,
             settings := (parseSettingsPairs
                 (b.take (b.length / 6 * 6))).foldl
               (fun m kv => dictInsert m kv.1 kv.2) [] }, b.length) ∧
    (parseSettingsPairs b).length = b.length / 6 := by
  refine ⟨?_, parseSettingsPairs_length b⟩
  unfold new_settings_parse_body
  rw [parseSettingsPairs_take]

/-- C10 witness: an 8-byte body (`ENABLE_PUSH = 7` plus the remainder
`[9, 9]`) parses to the single pair `(2, 7)` with `body_len = 8`. -/
theorem C10_settings_remainder_witness :
    (([0, 2, 0, 0, 0, 7, 9, 9] : Bytes).length % 6 ≠ 0) ∧
    (new_settings_parse_body 0 false [0, 2, 0, 0, 0, 7, 9, 9] =
      .ok ({ stream_id := 0, ack := false, settings := [(2, 7)] }, 8) ∧
    (parseSettingsPairs [0, 2, 0, 0, 0, 7, 9, 9]).length = 1) :=
  ⟨by decide, C10_settings_remainder_ignored 0 false _ (by decide)⟩

/-! ## Connection-level state machine

`h2.connection.H2ConnectionStateMachine` (h2 4.2.0) and the
`H2ConnectionStateMachineOverride` subclass of `http_2_overwrite.py`. -/

/-- `h2.connection.ConnectionState`. -/
inductive ConnectionState
  | idle
  | client_open
  | server_open
  | closed
deriving DecidableEq, Repr

/-- `h2.connection.ConnectionInputs` (all 20 members). -/
inductive ConnectionInputs
  | send_headers
  | send_push_promise
  | send_data
  | send_goaway
  | send_window_update
  | send_ping
  | send_settings
  | send_rst_stream
  | send_priority
  | recv_headers
  | recv_push_promise
  | recv_data
  | recv_goaway
  | recv_window_update
  | recv_ping
  | recv_settings
  | recv_rst_stream
  | recv_priority
  | send_alternative_service
  | recv_alternative_service
deriving DecidableEq, Repr

/-- Events a state-machine side-effect function would produce.  Every
entry of h2 4.2.0's `_transitions` table carries `None` as its
side-effect function, so no such event ever exists. -/
inductive StateMachineEvent
deriving DecidableEq, Repr

/-- `H2ConnectionStateMachine._transitions`: the allowed `(state, input)`
pairs and their end states (all side-effect functions are `None`);
`none` models absence from the dictionary (a `KeyError`). -/
def H2ConnectionStateMachine_transitions :
    ConnectionState → ConnectionInputs → Option ConnectionState
  | .idle, .send_headers => some .client_open
  | .idle, .recv_headers => some .server_open
  | .idle, .send_settings => some .idle
  | .idle, .recv_settings => some .idle
  | .idle, .send_window_update => some .idle
  | .idle, .recv_window_update => some .idle
  | .idle, .send_ping => some .idle
  | .idle, .recv_ping => some .idle
  | .idle, .send_goaway => some .closed
  | .idle, .recv_goaway => some .closed
  | .idle, .send_priority => some .idle
  | .idle, .recv_priority => some .idle
  | .idle, .send_alternative_service => some .server_open
  | .idle, .recv_alternative_service => some .client_open
  | .client_open, .send_headers => some .client_open
  | .client_open, .send_data => some .client_open
  | .client_open, .send_goaway => some .closed
  | .client_open, .send_window_update => some .client_open
  | .client_open, .send_ping => some .client_open
  | .client_open, .send_settings => some .client_open
  | .client_open, .send_priority => some .client_open
  | .client_open, .recv_headers => some .client_open
  | .client_open, .recv_push_promise => some .client_open
  | .client_open, .recv_data => some .client_open
  | .client_open, .recv_goaway => some .closed
  | .client_open, .recv_window_update => some .client_open
  | .client_open, .recv_ping => some .client_open
  | .client_open, .recv_settings => some .client_open
  | .client_open, .send_rst_stream => some .client_open
  | .client_open, .recv_rst_stream => some .client_open
  | .client_open, .recv_priority => some .client_open
  | .client_open, .recv_alternative_service => some .client_open
  | .server_open, .send_headers => some .server_open
  | .server_open, .send_push_promise => some .server_open
  | .server_open, .send_data => some .server_open
  | .server_open, .send_goaway => some .closed
  | .server_open, .send_window_update => some .server_open
  | .server_open, .send_ping => some .server_open
  | .server_open, .send_settings => some .server_open
  | .server_open, .send_priority => some .server_open
  | .server_open, .recv_headers => some .server_open
  | .server_open, .recv_data => some .server_open
  | .server_open, .recv_goaway => some .closed
  | .server_open, .recv_window_update => some .server_open
  | .server_open, .recv_ping => some .server_open
  | .server_open, .recv_settings => some .server_open
  | .server_open, .recv_priority => some .server_open
  | .server_open, .send_rst_stream => some .server_open
  | .server_open, .recv_rst_stream => some .server_open
  | .server_open, .send_alternative_service => some .server_open
  | .server_open, .recv_alternative_service => some .server_open
  | .closed, .send_goaway => some .closed
  | .closed, .recv_goaway => some .closed
  | _, _ => none

/-- Unpatched `H2ConnectionStateMachine.process_input`: a listed
transition moves to its end state and returns `[]` (no side-effect
function is ever set); a missing one moves the machine to CLOSED and
raises `ProtocolError`. -/
def H2ConnectionStateMachine.process_input (state : ConnectionState)
    (i : ConnectionInputs) :
    ConnectionState × Except H2Err (List StateMachineEvent) :=
  match H2ConnectionStateMachine_transitions state i with
  | some target => (target, .ok [])
  | none => (.closed, .error .protocolError)

/-- `H2ConnectionStateMachineOverride.process_input`: in IDLE, the
inputs SEND_DATA, RECV_DATA, SEND_HEADERS, RECV_HEADERS return `[]`
without consulting the transition table; everything else falls through
to the unpatched method. -/
def H2ConnectionStateMachineOverride.process_input
    (state : ConnectionState) (i : ConnectionInputs) :
    ConnectionState × Except H2Err (List StateMachineEvent) :=
  if state = .idle ∧ (i = .send_data ∨ i = .recv_data ∨
      i = .send_headers ∨ i = .recv_headers) then
    (state, .ok [])
  else
    H2ConnectionStateMachine.process_input state i

/-- C3: in IDLE, each of SEND_DATA, RECV_DATA, SEND_HEADERS and
RECV_HEADERS is processed with no state change, no error and no events;
for every other (state, input) pair the override behaves exactly as the
unmodified state machine, including moving to CLOSED and raising
ProtocolError on transitions missing from the table. -/
theorem C3_idle_bypass_exact (s : ConnectionState) (i : ConnectionInputs) :
    (s = .idle ∧ (i = .send_data ∨ i = .recv_data ∨
        i = .send_headers ∨ i = .recv_headers) →
      H2ConnectionStateMachineOverride.process_input s i = (s, .ok [])) ∧
    (¬(s = .idle ∧ (i = .send_data ∨ i = .recv_data ∨
        i = .send_headers ∨ i = .recv_headers)) →
      H2ConnectionStateMachineOverride.process_input s i =
        H2ConnectionStateMachine.process_input s i) := by
  constructor
  · rintro ⟨hs, hi⟩
    subst hs
    rcases hi with h1 | h1 | h1 | h1 <;> subst h1 <;> rfl
  · intro h
    unfold H2ConnectionStateMachineOverride.process_input
    rw [if_neg h]

/-- C3 witness: SEND_DATA in IDLE is bypassed; SEND_PUSH_PROMISE in
IDLE goes through the unmodified table (and is invalid there). -/
theorem C3_idle_bypass_witness :
    (H2ConnectionStateMachineOverride.process_input .idle .send_data =
      (.idle, .ok [])) ∧
    (H2ConnectionStateMachineOverride.process_input .idle
        .send_push_promise =
      H2ConnectionStateMachine.process_input .idle .send_push_promise) :=
  ⟨(C3_idle_bypass_exact .idle .send_data).1 ⟨rfl, Or.inl rfl⟩,
   (C3_idle_bypass_exact .idle .send_push_promise).2 (by decide)⟩

/-! ## Flow-control window accounting (DATA receipt)

`h2.windows.WindowManager` plus the patched `_receive_data_frame`. -/

/-- `h2.windows.WindowManager` state. -/
structure WindowManager where
  max_window_size : Int
  current_window_size : Int
  bytes_processed : Nat
deriving DecidableEq, Repr

/-- `WindowManager.window_consumed`: subtract, then raise
`FlowControlError` when the window went below 0. -/
def WindowManager.window_consumed (m : WindowManager) (size : Int) :
    Except H2Err WindowManager :=
  let m2 := { m with current_window_size := m.current_window_size - size }
  if m2.current_window_size < 0 then .error .flowControlError
  else .ok m2

/-- Connection events relevant to the embedded handlers. -/
inductive H2Event
  | dataReceived
deriving DecidableEq, Repr

/-- Patched `_receive_data_frame` (`new_receive_data_frame`): no stream
or connection state is consulted; the flow-controlled length is
`len(data) + pad_length + 1` when `frame.pad_length` is truthy (nonzero)
and `len(data)` otherwise; one DataReceived event is returned. -/
def new_receive_data_frame (wm : WindowManager) (f : DataFrame) :
    Except H2Err (WindowManager × List Frame × List H2Event) :=
  let flow_controlled_length : Int :=
    if f.pad_length ≠ 0 then (f.data.length : Int) + f.pad_length + 1
    else (f.data.length : Int)
  match wm.window_consumed flow_controlled_length with
  | .error e => .error e
  | .ok wm2 => .ok (wm2, [], [.dataReceived])

/-- C7 counterexample: a padded DATA frame with declared `pad_length`
0 and a 5-byte payload consumes 5 bytes of window (100 becomes 95), not
the `len(payload) + pad_length + 1 = 6` of the claim (100 to 94): the
code tests the truthiness of `pad_length`, not the PADDED flag. -/
theorem C7_counterexample :
    (let f : DataFrame := { stream_id := 1, end_stream := false,
                            padded := true, pad_length := 0,
                            data := [1, 2, 3, 4, 5] }
    f.padded = true ∧
    new_receive_data_frame ⟨100, 100, 0⟩ f =
      .ok (⟨100, 95, 0⟩, [], [.dataReceived]) ∧
    new_receive_data_frame ⟨100, 100, 0⟩ f ≠
      .ok (⟨100, 94, 0⟩, [], [.dataReceived])) := by
  refine ⟨rfl, by decide, by decide⟩

/-- C7 (amended): a received DATA frame consumes
`len(data) + pad_length + 1` window bytes when its declared
`pad_length` is nonzero and `len(data)` bytes otherwise (the PADDED
flag itself is never consulted, nor is any stream or connection state);
when the window stays non-negative the frame is accepted with exactly
one data-received event, and otherwise FlowControlError is raised. -/
theorem C7_data_flow_accounting (wm : WindowManager) (f : DataFrame) :
    (0 ≤ wm.current_window_size -
        (if f.pad_length ≠ 0 then (f.data.length : Int) + f.pad_length + 1
         else (f.data.length : Int)) →
      new_receive_data_frame wm f =
        .ok ({ wm with current_window_size := wm.current_window_size -
            (if f.pad_length ≠ 0 then (f.data.length : Int) + f.pad_length + 1
             else (f.data.length : Int)) },
          [], [.dataReceived])) ∧
    (wm.current_window_size -
        (if f.pad_length ≠ 0 then (f.data.length : Int) + f.pad_length + 1
         else (f.data.length : Int)) < 0 →
      new_receive_data_frame wm f = .error .flowControlError) := by
  simp only [new_receive_data_frame, WindowManager.window_consumed]
  generalize (if f.pad_length ≠ 0 then ((f.data.length : Int) + f.pad_length + 1)
    else ((f.data.length : Int))) = C
  constructor
  · intro h
    rw [if_neg (not_lt.mpr h)]
  · intro h
    rw [if_pos h]

/-- C7 witness: the amended accounting applied to a frame with
`pad_length = 2` over a window of 100 (consumes 3 + 2 + 1 = 6), and to
the same frame over a window of 2 (FlowControlError). -/
theorem C7_data_flow_witness :
    (new_receive_data_frame ⟨100, 100, 0⟩
      { stream_id := 1, end_stream := false, padded := true,
        pad_length := 2, data := [1, 2, 3] } =
      .ok (⟨100, 94, 0⟩, [], [.dataReceived])) ∧
    (new_receive_data_frame ⟨100, 2, 0⟩
      { stream_id := 1, end_stream := false, padded := true,
        pad_length := 2, data := [1, 2, 3] } =
      .error .flowControlError) :=
  ⟨(C7_data_flow_accounting ⟨100, 100, 0⟩ _).1 (by decide),
   (C7_data_flow_accounting ⟨100, 2, 0⟩ _).2 (by decide)⟩

/-! ## Naked CONTINUATION handling

Patched `_receive_naked_continuation` (`new_receive_naked_continuation`).
Header decoding (`_decode_headers`) is abstracted as a parameter whose
value is irrelevant: the code empties `self._header_frames` and then
subscripts `self._header_frames[0]`, so the dispatch on the decoded
headers is unreachable. -/

/-- The `data` attribute of the frames that can sit in
`_header_frames` (HEADERS, PUSH_PROMISE, CONTINUATION; other types
never occur there). -/
def frame_data_field : Frame → Bytes
  | .data f => f.data
  | .headers f => f.data
  | .push_promise f => f.data
  | .continuation f => f.data
  | _ => []

/-- Patched `_receive_naked_continuation`: an empty `_header_frames`
silently drops the frame; otherwise the frame is appended and, on
END_HEADERS, the joined fragments are decoded, `self._header_frames`
is assigned `[]`, and the very next statement evaluates
`self._header_frames[0]` — an IndexError on the freshly emptied list,
before any HEADERS/PUSH_PROMISE dispatch can happen. -/
def new_receive_naked_continuation (decode : Bytes → Except H2Err Unit)
    (header_frames : List Frame) (f : ContinuationFrame) :
    Except H2Err (List Frame × List H2Event × List Frame) :=
  if header_frames.isEmpty then
    .ok ([], [], header_frames)
  else
    let hfs := header_frames ++ [.continuation f]
    if f.end_headers then
      match decode ((hfs.map frame_data_field).flatten) with
      | .error e => .error e
      | .ok _ => .error .indexError
    else
      .ok ([], [], hfs)

/-- C8: a CONTINUATION frame arriving while `_header_frames` is empty
produces no frames, no events and no error, and the header-frame state
is left unchanged (still empty), for every decoder and every frame. -/
theorem C8_naked_continuation_dropped (decode : Bytes → Except H2Err Unit)
    (f : ContinuationFrame) :
    new_receive_naked_continuation decode [] f = .ok ([], [], []) := rfl

/-- C9: with a header sequence in progress and END_HEADERS set, the
handler always fails with IndexError (`self._header_frames` is emptied
immediately before `self._header_frames[0]` is read), so the promised
decode-and-dispatch completion never happens even when decoding
succeeds. -/
theorem C9_end_headers_raises (decode : Bytes → Except H2Err Unit)
    (hfs : List Frame) (f : ContinuationFrame)
    (hne : hfs ≠ [])
    (hend : f.end_headers = true)
    (hdec : ∀ b, decode b = .ok ()) :
    new_receive_naked_continuation decode hfs f = .error .indexError := by
  have hne2 : hfs.isEmpty = false := by
    cases hfs
    · exact absurd rfl hne
    · rfl
  simp only [new_receive_naked_continuation, hne2, hend, Bool.false_eq_true,
    if_false, if_true, hdec]

/-- C9 witness: a buffered HEADERS frame followed by an END_HEADERS
CONTINUATION, with a decoder that always succeeds, yields IndexError. -/
theorem C9_end_headers_raises_witness :
    new_receive_naked_continuation (fun b => .ok ())
      [.headers { stream_id := 1, end_stream := false,
                  end_headers := false, padded := false, priority := false,
                  pad_length := 0, depends_on := 0, stream_weight := 0,
                  exclusive := false, data := [] }]
      { stream_id := 1, end_headers := true, data := [] } =
      .error .indexError :=
  C9_end_headers_raises _ _ _ (by decide) rfl (fun b => rfl)

/-! ## PUSH_PROMISE receipt

The patched `_receive_push_promise_frame` over a model of the
connection fields it reads: the live stream table, the closure
records, the stream-id parity bookmarks and the ENABLE_PUSH local
setting.  HPACK decoding (`_decode_headers`) and the parent stream's
`receive_push_promise_in_band` are abstracted as parameters. -/

/-- `h2.stream.StreamClosedBy`. -/
inductive StreamClosedBy
  | send_end_stream
  | recv_end_stream
  | send_rst_stream
  | recv_rst_stream
deriving DecidableEq, Repr

/-- `d[k] = v` on a Python dict keyed by stream id. -/
def assocInsert {α : Type} (m : List (Nat × α)) (k : Nat) (v : α) :
    List (Nat × α) :=
  match m with
  | [] => [(k, v)]
  | (k1, v1) :: rest =>
      if k1 = k then (k, v) :: rest else (k1, v1) :: assocInsert rest k v

/-- The `H2Connection` fields the PUSH_PROMISE handler reads or
writes.  A live stream is recorded with its `closed_by` attribute; a
removed stream's closure reason lives in `_closed_streams`. -/
structure H2ConnModel where
  client_side : Bool
  enable_push : Bool
  streams : List (Nat × Option StreamClosedBy)
  closed_streams : List (Nat × Option StreamClosedBy)
  highest_inbound_stream_id : Nat
  highest_outbound_stream_id : Nat
deriving DecidableEq, Repr

/-- `H2Connection._stream_id_is_outbound`. -/
def _stream_id_is_outbound (c : H2ConnModel) (stream_id : Nat) : Bool :=
  stream_id % 2 == (if c.client_side then 1 else 0)

/-- `H2Connection._get_stream_by_id`: id 0 is falsy
(`NoSuchStreamError(-1)`); a live stream is returned; otherwise ids
above the matching highest-seen bookmark raise `NoSuchStreamError` and
the rest raise `StreamClosedError` (a subclass of the former). -/
def _get_stream_by_id (c : H2ConnModel) (stream_id : Nat) :
    Except H2Err Nat :=
  if stream_id = 0 then .error .noSuchStreamError
  else
    match c.streams.lookup stream_id with
    | some _ => .ok stream_id
    | none =>
        let highest := if _stream_id_is_outbound c stream_id then
            c.highest_outbound_stream_id
          else c.highest_inbound_stream_id
        if stream_id > highest then .error .noSuchStreamError
        else .error .streamClosedError

/-- `H2Connection._stream_closed_by`. -/
def _stream_closed_by (c : H2ConnModel) (stream_id : Nat) :
    Option StreamClosedBy :=
  match c.streams.lookup stream_id with
  | some cb => cb
  | none =>
      match c.closed_streams.lookup stream_id with
      | some cb => cb
      | none => none

/-- Patched `_begin_new_stream` (`new_begin_new_stream`): registers a
fresh stream (its `closed_by` is `None`) and bumps the matching
highest-id bookmark; the `allowed_ids` argument is never checked. -/
def new_begin_new_stream (c : H2ConnModel) (stream_id : Nat) :
    H2ConnModel :=
  let outbound := _stream_id_is_outbound c stream_id
  { c with
    streams := assocInsert c.streams stream_id none
    highest_outbound_stream_id :=
      if outbound then stream_id else c.highest_outbound_stream_id
    highest_inbound_stream_id :=
      if outbound then c.highest_inbound_stream_id else stream_id }

/-- `h2.errors.ErrorCodes.REFUSED_STREAM` (0x7). -/
def REFUSED_STREAM : Nat := 7

/-- Patched `_receive_push_promise_frame`
(`new_receive_push_promise_frame`).  `decode` stands for
`_decode_headers` (only success matters on the paths below), `in_band`
for `stream.receive_push_promise_in_band` on the resolved parent.  The
`except NoSuchStreamError` clause also catches `StreamClosedError`,
its subclass, and `_get_stream_by_id` raises nothing else, so the
`.error _` arm is exact.  Note the asymmetry the code carries: the
lookup remaps stream id 0 to 1, but `_stream_closed_by` is consulted
with the unremapped `frame.stream_id`. -/
def new_receive_push_promise_frame (decode : Bytes → Except H2Err Unit)
    (in_band : Nat → Except H2Err (List Frame × List H2Event))
    (c : H2ConnModel) (frame : PushPromiseFrame) :
    Except H2Err (List Frame × List H2Event × H2ConnModel) :=
  if !c.enable_push then .error .protocolError
  else
    match decode frame.data with
    | .error e => .error e
    | .ok _ =>
        match _get_stream_by_id c
            (if frame.stream_id = 0 then 1 else frame.stream_id) with
        | .error _ =>
            if _stream_closed_by c frame.stream_id
                = some .send_rst_stream then
              .ok ([.rst_stream { stream_id := frame.promised_stream_id,
                                  error_code := REFUSED_STREAM }], [], c)
            else .error .protocolError
        | .ok sid =>
            match in_band sid with
            | .error .streamClosedError =>
                .ok ([.rst_stream { stream_id := frame.promised_stream_id,
                                    error_code := REFUSED_STREAM }], [], c)
            | .error e => .error e
            | .ok (frames, stream_events) =>
                let c2 := new_begin_new_stream c frame.promised_stream_id
                .ok (frames, stream_events,
                  { c2 with streams :=
                      assocInsert c2.streams frame.promised_stream_id none })

/-- C2 counterexample: a PUSH_PROMISE on stream 0 resolves its parent
as stream 1; with stream 1 absent from the live table precisely
because it was reset by a locally sent RST_STREAM, the handler still
raises ProtocolError — the closed-by check consults `frame.stream_id`
(0), never recorded anywhere, instead of the resolved parent (1). -/
theorem C2_counterexample :
    (let c : H2ConnModel := { client_side := true, enable_push := true,
                              streams := [],
                              closed_streams := [(1, some .send_rst_stream)],
                              highest_inbound_stream_id := 0,
                              highest_outbound_stream_id := 1 }
    let frame : PushPromiseFrame := { stream_id := 0, end_headers := true,
                                      padded := false, pad_length := 0,
                                      promised_stream_id := 2, data := [] }
    c.streams.lookup 1 = none ∧
    _stream_closed_by c 1 = some .send_rst_stream ∧
    new_receive_push_promise_frame (fun b => .ok ()) (fun sid => .ok ([], []))
      c frame = .error .protocolError) := by
  exact ⟨rfl, rfl, by decide⟩

/-- C2 (amended): push enabled, header block decodable, and the
(nonzero) parent stream id absent from the live stream table: when the
closure record for that id says it was reset by a locally sent
RST_STREAM, the handler queues RST_STREAM(REFUSED_STREAM) for the
promised id, raises nothing and returns the connection — its
`closed_streams` included — unchanged; for any other closure record it
raises ProtocolError and creates no stream. -/
theorem C2_push_promise_on_reset_parent
    (decode : Bytes → Except H2Err Unit)
    (in_band : Nat → Except H2Err (List Frame × List H2Event))
    (c : H2ConnModel) (frame : PushPromiseFrame)
    (hpush : c.enable_push = true)
    (hdec : decode frame.data = .ok ())
    (hsid : frame.stream_id ≠ 0)
    (habsent : c.streams.lookup frame.stream_id = none) :
    (_stream_closed_by c frame.stream_id = some .send_rst_stream →
      new_receive_push_promise_frame decode in_band c frame =
        .ok ([.rst_stream { stream_id := frame.promised_stream_id,
                            error_code := REFUSED_STREAM }], [], c)) ∧
    (_stream_closed_by c frame.stream_id ≠ some .send_rst_stream →
      new_receive_push_promise_frame decode in_band c frame =
        .error .protocolError) := by
  have hERR : ∃ e, _get_stream_by_id c frame.stream_id = .error e := by
    unfold _get_stream_by_id
    rw [if_neg hsid, habsent]
    dsimp only
    split <;> split <;> exact ⟨_, rfl⟩
  obtain ⟨e, he⟩ := hERR
  constructor
  · intro hcb
    simp only [new_receive_push_promise_frame, hpush, Bool.not_true,
      Bool.false_eq_true, if_false, hdec, if_neg hsid, he, hcb, if_true]
  · intro hcb
    simp only [new_receive_push_promise_frame, hpush, Bool.not_true,
      Bool.false_eq_true, if_false, hdec, if_neg hsid, he, if_neg hcb]

/-- C2 witness: the amended behaviour at concrete connections — parent
stream 3 reset locally (RST_STREAM REFUSED_STREAM queued for the
promised id 4, state unchanged) versus parent stream 3 reset by the
peer (ProtocolError). -/
theorem C2_push_promise_witness :
    (new_receive_push_promise_frame (fun b => .ok ()) (fun sid => .ok ([], []))
      { client_side := true, enable_push := true, streams := [],
        closed_streams := [(3, some .send_rst_stream)],
        highest_inbound_stream_id := 0, highest_outbound_stream_id := 3 }
      { stream_id := 3, end_headers := true, padded := false,
        pad_length := 0, promised_stream_id := 4, data := [] } =
      .ok ([.rst_stream { stream_id := 4, error_code := 7 }], [],
        { client_side := true, enable_push := true, streams := [],
          closed_streams := [(3, some .send_rst_stream)],
          highest_inbound_stream_id := 0,
          highest_outbound_stream_id := 3 })) ∧
    (new_receive_push_promise_frame (fun b => .ok ()) (fun sid => .ok ([], []))
      { client_side := true, enable_push := true, streams := [],
        closed_streams := [(3, some .recv_rst_stream)],
        highest_inbound_stream_id := 0, highest_outbound_stream_id := 3 }
      { stream_id := 3, end_headers := true, padded := false,
        pad_length := 0, promised_stream_id := 4, data := [] } =
      .error .protocolError) :=
  ⟨(C2_push_promise_on_reset_parent (fun b => .ok ())
      (fun sid => .ok ([], []))
      { client_side := true, enable_push := true, streams := [],
        closed_streams := [(3, some .send_rst_stream)],
        highest_inbound_stream_id := 0, highest_outbound_stream_id := 3 }
      { stream_id := 3, end_headers := true, padded := false,
        pad_length := 0, promised_stream_id := 4, data := [] }
      rfl rfl (by decide) rfl).1 (by decide),
   (C2_push_promise_on_reset_parent (fun b => .ok ())
      (fun sid => .ok ([], []))
      { client_side := true, enable_push := true, streams := [],
        closed_streams := [(3, some .recv_rst_stream)],
        highest_inbound_stream_id := 0, highest_outbound_stream_id := 3 }
      { stream_id := 3, end_headers := true, padded := false,
        pad_length := 0, promised_stream_id := 4, data := [] }
      rfl rfl (by decide) rfl).2 (by decide)⟩

end NoPasaran
